import Mathlib

/-!
Shallow embedding of the session-state conversation orchestrator of
`app/services/orchestration_service.py` (class `IntelligentHybridOrchestrator`),
together with the theorems that settle the frozen claims about it.

Modelling conventions:
* Python strings are `String`; `len`, `strip()`, `split()`, `lower()` and the
  two `re.search` patterns used by the code are reimplemented below over
  `List Char` (`pyStrip`, `pySplit`, `pyLower`, `hasPhoneDigits`,
  `hasEmailPattern`, `extractPhone`, `extractEmail`).
* Values stored in a session's `lead_data` dict are `Value`: either a string
  or a non-string (`Value.vother`, carrying its Python truthiness).  A string
  operation applied to a non-string raises; raising computations are embedded
  as `Except String _`, and each Python `try/except` is an explicit `match` on
  that `Except`.
* External collaborators (the lawyer-notification service, the session/lead
  store, the WhatsApp gateway, the wall clock) are oracles supplied through
  the `Env` structure and the `stored`/`now` parameters; the side effects the
  code performs on them are recorded as an ordered `List Event` trace.
* The qualification score is accumulated by the Python code as repeated
  additions of the float literal `0.1`; the model stores the number of
  additions (tenths).  See `scoreAtLeast08` / `scoreAtLeast07` for the exact
  IEEE-754 behaviour of the two float comparisons in `should_notify_lawyers`.
* Wall-clock timestamps are seconds (`Nat`); only `last_updated` is kept (the
  purely informational `created_at` / `lawyers_notified_at` fields are not
  modelled, nor are the log statements and the purely informational keys of
  returned dicts such as `"message"` and `"missing_criteria"`).
-/

/-! ## Python string primitives -/

/-- Python `str.strip()` on the left: drop leading whitespace characters. -/
def trimLeftChars : List Char → List Char
  | [] => []
  | c :: t => if c.isWhitespace then trimLeftChars t else c :: t

/-- Python `str.strip()` over a character list: drop leading and trailing
whitespace.  (`Char.isWhitespace` covers space, tab, CR, LF; the Python
default additionally strips `\x0b`/`\x0c`, which never occur in the
inputs this development evaluates.) -/
def trimChars (l : List Char) : List Char :=
  (trimLeftChars (trimLeftChars l).reverse).reverse

/-- Python `str.strip()`. -/
def pyStrip (s : String) : String := String.mk (trimChars s.toList)

/-- Helper for `pySplit`: split into maximal whitespace-free words, `acc`
holding the (reversed) current word. -/
def wordsAux : List Char → List Char → List (List Char)
  | [], [] => []
  | [], acc => [acc.reverse]
  | c :: t, acc =>
    if c.isWhitespace then
      match acc with
      | [] => wordsAux t []
      | _ :: _ => acc.reverse :: wordsAux t []
    else wordsAux t (c :: acc)

/-- Python `str.split()` with no argument: whitespace-separated words, with
empty words dropped. -/
def pySplit (s : String) : List String :=
  (wordsAux s.toList []).map fun l => String.mk l

/-- Python `str.lower()`.  (`Char.toLower` folds ASCII letters only; the
keyword tables this is compared against are lower-case already, and no
claim is evaluated on upper-case accented input.) -/
def pyLower (s : String) : String := String.mk (s.toList.map Char.toLower)

/-- Does the character list start with the given pattern? -/
def startsWithChars : List Char → List Char → Bool
  | _, [] => true
  | [], _ :: _ => false
  | a :: as, b :: bs => a == b && startsWithChars as bs

/-- Substring occurrence over character lists (Python `needle in hay`). -/
def hasSub : List Char → List Char → Bool
  | [], needle => needle.isEmpty
  | c :: t, needle => startsWithChars (c :: t) needle || hasSub t needle

/-- Python `needle in hay` for strings. -/
def containsSub (hay needle : String) : Bool := hasSub hay.toList needle.toList

/-- Replace every occurrence of a (nonempty) pattern, scanning left to right
(Python `str.replace`). -/
def replaceChars (pat rep : List Char) : List Char → List Char
  | [] => []
  | c :: t =>
    if startsWithChars (c :: t) pat ∧ pat ≠ [] then
      rep ++ replaceChars pat rep (t.drop (pat.length - 1))
    else
      c :: replaceChars pat rep t
termination_by l => l.length
decreasing_by
  · simp only [List.length_drop, List.length_cons]
    omega
  · simp only [List.length_cons]
    omega

/-- Python `s.replace(pat, rep)`. -/
def pyReplace (s pat rep : String) : String :=
  String.mk (replaceChars pat.toList rep.toList s.toList)

/-- Length of the run of characters satisfying `p` at the head of the list. -/
def countWhile (p : Char → Bool) : List Char → Nat
  | [] => 0
  | c :: t => if p c then countWhile p t + 1 else 0

/-- Longest run of decimal digits anywhere in the list (`cur` is the current
run, `best` the best seen so far). -/
def maxDigitRunAux : List Char → Nat → Nat → Nat
  | [], cur, best => max cur best
  | c :: t, cur, best =>
    if c.isDigit then maxDigitRunAux t (cur + 1) best
    else maxDigitRunAux t 0 (max cur best)

/-- Python `re.search(r"\d{10,11}", s) is not None`: the string contains a
run of at least ten consecutive digits. -/
def hasPhoneDigits (s : String) : Bool :=
  10 ≤ maxDigitRunAux s.toList 0 0

/-- Python `\S` (non-whitespace). -/
def isNonSpace (c : Char) : Bool := ¬ c.isWhitespace

/-- Python `re.search(r"\S+@\S+\.\S+", s) is not None`: some `@` preceded by
a non-space character is followed by at least one non-space character, a dot,
and a further non-space character. -/
def hasEmailPattern (s : String) : Bool :=
  let cs := s.toList
  (List.range cs.length).any fun i =>
    (List.range cs.length).any fun j =>
      decide (1 ≤ i) && decide (i + 2 ≤ j) && decide (j + 1 < cs.length) &&
      (cs.getD i ' ' == '@') && (cs.getD j ' ' == '.') &&
      isNonSpace (cs.getD (i - 1) ' ') && isNonSpace (cs.getD (j + 1) ' ') &&
      ((List.range (j - i - 1)).all fun t => isNonSpace (cs.getD (i + 1 + t) ' '))

/-- First (leftmost, greedy) match of `re.search(r"(\d{10,11})", s)`: scan
positions left to right and, at the first position opening a run of at least
ten digits, take up to eleven of them. -/
def phoneScan : List Char → Option (List Char)
  | [] => none
  | c :: t =>
    let run := countWhile Char.isDigit (c :: t)
    if 10 ≤ run then some ((c :: t).take (min run 11))
    else phoneScan t

/-- Captured text of `re.search(r"(\d{10,11})", s)`, if any. -/
def extractPhone (s : String) : Option String :=
  (phoneScan s.toList).map fun l => String.mk l

/-- Character class `[A-Za-z0-9._%+-]` of the e-mail regex's local part. -/
def isEmailLocalChar (c : Char) : Bool :=
  c.isAlpha || c.isDigit || c == '.' || c == '_' || c == '%' || c == '+' || c == '-'

/-- Character class `[A-Za-z0-9.-]` of the e-mail regex's domain part. -/
def isEmailDomainChar (c : Char) : Bool :=
  c.isAlpha || c.isDigit || c == '.' || c == '-'

/-- Length of the match of `[A-Za-z0-9._%+-]+@[A-Za-z0-9.-]+\.[A-Za-z]{2,}`
anchored at the head of the list, if any.  The greedy `+` before `@` is
forced (no class character equals `@`); after `@` the engine backtracks to
the last dot of the domain run that is followed by at least two letters. -/
def emailFrom (l : List Char) : Option Nat :=
  let a := countWhile isEmailLocalChar l
  if a = 0 then none
  else
    match l.drop a with
    | '@' :: rest =>
      let m := countWhile isEmailDomainChar rest
      let cand := ((List.range m).filter fun d =>
        decide (1 ≤ d) && (rest.getD d ' ' == '.') &&
        decide (2 ≤ countWhile Char.isAlpha (rest.drop (d + 1)))).max?
      match cand with
      | some d => some (a + 1 + d + 1 + countWhile Char.isAlpha (rest.drop (d + 1)))
      | none => none
    | _ => none

/-- Leftmost match of the e-mail regex, as the matched character list. -/
def emailScan : List Char → Option (List Char)
  | [] => none
  | c :: t =>
    match emailFrom (c :: t) with
    | some n => some ((c :: t).take n)
    | none => emailScan t

/-- Captured text of
`re.search(r"([A-Za-z0-9._%+-]+@[A-Za-z0-9.-]+\.[A-Za-z]{2,})", s)`. -/
def extractEmail (s : String) : Option String :=
  (emailScan s.toList).map fun l => String.mk l

/-! ## Values and the `lead_data` mapping -/

/-- A value stored in a session's `lead_data` dict: a Python string, or a
non-string object (`None`, a number, ...) carrying its Python truthiness.
String methods invoked on a non-string raise. -/
inductive Value where
  | vstr (s : String)
  | vother (truthy : Bool)
deriving DecidableEq, Repr

/-- Python truthiness of a stored value (a string is truthy iff nonempty). -/
def Value.truthy : Value → Bool
  | .vstr s => s ≠ ""
  | .vother b => b

/-- Python `v.strip()`: raises (`AttributeError`) on a non-string. -/
def Value.strip : Value → Except String String
  | .vstr s => .ok (pyStrip s)
  | .vother _ => .error "AttributeError"

/-- Using a value where a `str` is required (`len`, `re.search`, `split`,
`lower`, string interpolation): raises on a non-string. -/
def Value.asStr : Value → Except String String
  | .vstr s => .ok s
  | .vother _ => .error "TypeError"

/-- The `lead_data` dict: an (insertion-ordered) association list. -/
abbrev LeadData := List (String × Value)

/-- Python `lead_data.get(k)` (`None`, i.e. `none`, when absent). -/
def getField : LeadData → String → Option Value
  | [], _ => none
  | (k0, v0) :: t, k => if k0 == k then some v0 else getField t k

/-- Python `lead_data.get(k, dflt)`. -/
def getFieldOr (d : LeadData) (k : String) (dflt : Value) : Value :=
  (getField d k).getD dflt

/-- Python `lead_data.get(k, "")`, the most common read in the code. -/
def getFieldD (d : LeadData) (k : String) : Value := getFieldOr d k (.vstr "")

/-- Truthiness of `lead_data.get(k)` (absent key is `None`, hence falsy). -/
def fieldTruthy (d : LeadData) (k : String) : Bool :=
  match getField d k with
  | some v => v.truthy
  | none => false

/-- Python `lead_data[k] = v`: replace the first binding of `k`, or append a
new binding (dicts preserve insertion order). -/
def setField : LeadData → String → Value → LeadData
  | [], k, v => [(k, v)]
  | (k0, v0) :: t, k, v =>
    if k0 == k then (k, v) :: t else (k0, v0) :: setField t k v

/-- Python `user_name.split()[0] if user_name else dflt` where `user_name`
is a stored value: the default on a falsy value, the first whitespace word
otherwise; raises on a truthy non-string, and raises `IndexError` on a
truthy all-whitespace string (whose `split()` is empty). -/
def firstWordOr (v : Value) (dflt : String) : Except String String :=
  if v.truthy then
    match v with
    | .vstr s =>
      match pySplit s with
      | [] => .error "IndexError"
      | w :: _ => .ok w
    | .vother _ => .error "AttributeError"
  else .ok dflt

/-- The recurring pattern
`lead_data.get("identification", "").split()[0] if lead_data.get("identification") else ""`. -/
def condFirstWord (d : LeadData) : Except String String :=
  firstWordOr (getFieldD d "identification") ""

/-! ## Sessions, oracles and the side-effect trace -/

/-- A user session as stored by `save_user_session`.  Field defaults equal
the `session_data.get(key, default)` defaults the code uses, so a dict
missing a key and a `Session` holding the default are indistinguishable to
the orchestrator.  Purely informational timestamp fields (`created_at`,
`lawyers_notified_at`, the authorization metadata) are not modelled;
`last_updated` is kept as seconds since the epoch. -/
structure Session where
  session_id : String := ""
  platform : String := "web"
  current_step : String := "step1_name"
  lead_data : LeadData := []
  message_count : Nat := 0
  flow_completed : Bool := false
  phone_submitted : Bool := false
  lawyers_notified : Bool := false
  lead_qualified : Bool := false
  first_interaction : Bool := false
  phone_number : Option String := none
  phone_formatted : Option String := none
  last_updated : Nat := 0
deriving DecidableEq, Repr

/-- Outcome of one call to
`lawyer_notification_service.notify_lawyers_of_new_lead`: it returned
`{"success": True}`, returned an unsuccessful result, or raised. -/
inductive NotifyOutcome where
  | success
  | failure
  | raised
deriving DecidableEq, Repr

/-- One externally visible side effect, in program order. -/
inductive Event where
  /-- a dispatch attempt to the lawyer-notification service -/
  | notifySend (session_id : String)
  /-- `save_user_session(session_id, s)` -/
  | sessionSaved (session_id : String) (s : Session)
  /-- `save_lead_data(...)` (payload not modelled) -/
  | leadSaved
  /-- `baileys_service.send_whatsapp_message(phone, ...)` -/
  | whatsappSend (phone : String)
deriving DecidableEq, Repr

/-- Oracles for the external collaborators consulted during one processed
message: the results of the (up to two) lawyer-notification dispatches, the
WhatsApp send result, and the local hour used by the greeting. -/
structure Env where
  notifyOutcome1 : NotifyOutcome := .failure
  notifyOutcome2 : NotifyOutcome := .failure
  whatsappSendOk : Bool := false
  hour : Nat := 12
  now : Nat := 0
deriving DecidableEq, Repr

/-- Result of `should_notify_lawyers`, keeping the decision-relevant keys of
the returned dict (`should_notify`, `reason`, `qualification_score`; the
informational `message`, `missing_criteria`, `engagement_level`,
`current_step` keys are not modelled).  The score is in tenths. -/
structure NotifyDecision where
  should_notify : Bool
  reason : String
  qualification_score : Option Nat := none
deriving DecidableEq, Repr

/-- Result of `notify_lawyers_if_qualified` (keys `notified` and `success`
of the returned dict; `success` is only set on dispatch paths). -/
structure NotifyResult where
  notified : Bool
  success : Bool := false
  reason : Option String := none
deriving DecidableEq, Repr

/-! ## Qualification score -/

/-- Keyword table of `_calculate_qualification_score`. -/
def scoreAreaKeywords : List String := ["penal", "saude", "saúde", "criminal", "plano"]

/-- Number of `score += 0.1` additions performed by
`_calculate_qualification_score` before the `min(score, 1.0)` cap (which
caps the count at ten); raises exactly where that code raises, namely at a
`.strip()` applied to a non-string field value. -/
def qualificationScoreE (lead_data : LeadData) : Except String Nat := do
  let name ← (getFieldD lead_data "identification").strip
  let nameScore :=
    (if 3 ≤ name.length then 1 else 0) + (if 2 ≤ (pySplit name).length then 1 else 0)
  let contact ← (getFieldD lead_data "contact_info").strip
  let contactScore :=
    if contact ≠ "" then
      1 + (if hasPhoneDigits contact then 1 else 0) + (if hasEmailPattern contact then 1 else 0)
    else 0
  let area ← (getFieldD lead_data "area_qualification").strip
  let areaScore :=
    if area ≠ "" then
      1 + (if scoreAreaKeywords.any (fun k => containsSub (pyLower area) k) then 1 else 0)
    else 0
  let details ← (getFieldD lead_data "case_details").strip
  let detailsScore :=
    if details ≠ "" then
      1 + (if 20 ≤ details.length then 1 else 0) + (if 50 ≤ details.length then 1 else 0)
    else 0
  return min (nameScore + contactScore + areaScore + detailsScore) 10

/-- `_calculate_qualification_score`: the accumulated tenths, with the
`except` clause mapping any internal error to `0.0`.  The `platform`
parameter is unused, as in the code. -/
def calculate_qualification_score (lead_data : LeadData) (platform : String) : Nat :=
  match qualificationScoreE lead_data with
  | .ok n => n
  | .error _ => 0

/-- The float comparison `qualification_score >= 0.8` of the web branch,
expressed on the number of tenths accumulated.  The Python accumulator is a
float: after eight additions of the IEEE-754 double `0.1` it holds
`0.7999999999999999`, which is below the double `0.8`, and after nine
additions it holds `0.8999999999999999`; so the comparison holds exactly
when at least nine additions fired. -/
def scoreAtLeast08 (tenths : Nat) : Bool := decide (9 ≤ tenths)

/-- The float comparison `qualification_score >= 0.7` of the WhatsApp
branch: seven additions of the double `0.1` give exactly the double `0.7`,
so the comparison holds exactly when at least seven additions fired. -/
def scoreAtLeast07 (tenths : Nat) : Bool := decide (7 ≤ tenths)

/-! ## The notification decision -/

/-- Required `lead_data` fields of the web branch of `should_notify_lawyers`. -/
def webRequiredFields : List String :=
  ["identification", "contact_info", "area_qualification", "case_details"]

/-- Required `lead_data` fields of the WhatsApp branch. -/
def whatsappRequiredFields : List String :=
  ["identification", "contact_info", "area_qualification"]

/-- Steps counted as advanced by the WhatsApp branch
(`current_step in ["step4_details", "step5_confirmation", "completed"]`). -/
def advancedSteps : List String := ["step4_details", "step5_confirmation", "completed"]

/-- The `criteria_met` expression of the web branch, with Python's
short-circuiting `and` (a raising `len(....strip())` is only reached when
the preceding conjuncts are true). -/
def webCriteriaE (s : Session) : Except String Bool :=
  if s.flow_completed && webRequiredFields.all (fun f => fieldTruthy s.lead_data f) then
    match (getFieldD s.lead_data "identification").strip with
    | .error e => .error e
    | .ok idS =>
      if 3 ≤ idS.length then
        match (getFieldD s.lead_data "case_details").strip with
        | .error e => .error e
        | .ok cd => .ok (decide (15 ≤ cd.length))
      else .ok false
  else .ok false

/-- The `engagement_criteria` expression of the WhatsApp branch. -/
def whatsappEngagementE (s : Session) : Except String Bool :=
  if 4 ≤ s.message_count ∧ whatsappRequiredFields.all (fun f => fieldTruthy s.lead_data f) then
    match (getFieldD s.lead_data "identification").strip with
    | .error e => .error e
    | .ok idS =>
      if 3 ≤ idS.length then
        match (getFieldD s.lead_data "area_qualification").strip with
        | .error e => .error e
        | .ok aq => .ok (decide (3 ≤ aq.length))
      else .ok false
  else .ok false

/-- The `not_qualified_yet` result returned when no branch fires. -/
def notQualifiedDecision (s : Session) (platform : String) : NotifyDecision :=
  ⟨false, "not_qualified_yet", some (calculate_qualification_score s.lead_data platform)⟩

/-- Body of `should_notify_lawyers` (inside its `try`): the
`lawyers_notified` guard first, then the platform-specific criteria. -/
def shouldNotifyE (s : Session) (platform : String) : Except String NotifyDecision :=
  if s.lawyers_notified then
    .ok ⟨false, "already_notified", none⟩
  else if platform == "web" then
    match webCriteriaE s with
    | .error e => .error e
    | .ok criteria_met =>
      if criteria_met && scoreAtLeast08 (calculate_qualification_score s.lead_data platform) then
        .ok ⟨true, "web_flow_completed",
          some (calculate_qualification_score s.lead_data platform)⟩
      else .ok (notQualifiedDecision s platform)
  else if platform == "whatsapp" then
    match whatsappEngagementE s with
    | .error e => .error e
    | .ok engagement =>
      if engagement && advancedSteps.contains s.current_step
          && scoreAtLeast07 (calculate_qualification_score s.lead_data platform) then
        .ok ⟨true, "whatsapp_qualified",
          some (calculate_qualification_score s.lead_data platform)⟩
      else .ok (notQualifiedDecision s platform)
  else .ok (notQualifiedDecision s platform)

/-- `should_notify_lawyers`: total; its `except` clause maps any internal
evaluation error to a negative decision (`evaluation_error`).  (The
informational `_get_missing_criteria` payload of the negative result only
reads fields with `.get` and cannot raise; it is not modelled.) -/
def should_notify_lawyers (s : Session) (platform : String) : NotifyDecision :=
  match shouldNotifyE s platform with
  | .ok d => d
  | .error _ => ⟨false, "evaluation_error", none⟩

/-- `notify_lawyers_if_qualified`: evaluates `should_notify_lawyers` and,
when it says to notify, dispatches to the lawyer-notification service; on a
successful dispatch (and only then) the session is marked
`lawyers_notified` and saved.  Returns the result dict, the in-memory
session (the code mutates `session_data` in place) and the side-effect
trace.  The notification payload (lead name, phone, category) is read from
`lead_data` with `.get` only; its single potentially raising read — the
`re.search` over `contact_info` — cannot raise in a state where
`should_notify` is true, because a true decision requires a qualification
score of at least seven tenths, which forces the score evaluation (and so
the `contact_info` strip) to have succeeded; the payload content is not
modelled. -/
def notify_lawyers_if_qualified (session_id : String) (s : Session)
    (platform : String) (outcome : NotifyOutcome) :
    NotifyResult × Session × List Event :=
  let check := should_notify_lawyers s platform
  if check.should_notify then
    match outcome with
    | .success =>
      let s2 := { s with lawyers_notified := true }
      (⟨true, true, none⟩, s2, [.notifySend session_id, .sessionSaved session_id s2])
    | .failure =>
      (⟨true, false, some "notification_failed"⟩, s, [.notifySend session_id])
    | .raised =>
      (⟨true, false, some "notification_exception"⟩, s, [.notifySend session_id])
  else
    (⟨false, false, some check.reason⟩, s, [])

/-! ## Flow definition, greeting and message templates -/

/-- One entry of the `_get_flow_steps` table. -/
structure FlowStep where
  question : String
  field : String
  next_step : String
deriving DecidableEq, Repr

/-- The hard-coded five-step flow of `_get_flow_steps` (keyed by step name;
`none` for keys outside the table, where Python indexing would raise). -/
def flowSteps : String → Option FlowStep
  | "step1_name" => some
      ⟨"Para que eu possa te ajudar da melhor forma, me diga qual é o seu nome completo? 😊",
       "identification", "step2_contact"⟩
  | "step2_contact" => some
      ⟨"Prazer em conhecê-lo, {user_name}! 🤝\n\nAgora preciso de suas informações de contato para darmos continuidade:\n\n📱 Qual seu melhor WhatsApp?\n📧 E seu e-mail principal?\n\nPode me passar essas duas informações?",
       "contact_info", "step3_area"⟩
  | "step3_area" => some
      ⟨"Perfeito, {user_name}! 👍\n\nEm qual área do direito você precisa de nossa ajuda?\n\n⚖️ Direito Penal (crimes, investigações, defesas)\n🏥 Direito da Saúde (planos de saúde, ações médicas, liminares)\n\nQual dessas áreas tem a ver com sua situação?",
       "area_qualification", "step4_details"⟩
  | "step4_details" => some
      ⟨"Entendi, {user_name}. 💼\n\nPara nossos advogados já terem uma visão completa, me conte:\n\n• Sua situação já está na justiça ou é algo que acabou de acontecer?\n• Tem algum prazo urgente ou audiência marcada?\n• Em que cidade isso está ocorrendo?\n\nFique à vontade para me contar os detalhes! 🤝",
       "case_details", "step5_confirmation"⟩
  | "step5_confirmation" => some
      ⟨"Obrigado por todos esses detalhes, {user_name}! 🙏\n\nSituações como a sua realmente precisam de atenção especializada e rápida.\n\nTenho uma excelente notícia: nossa equipe já resolveu dezenas de casos similares com ótimos resultados! ✅\n\nVou registrar tudo para que o advogado responsável já entenda completamente seu caso e possa te ajudar com agilidade.\n\nEm alguns minutos você estará falando diretamente com um especialista. Podemos prosseguir? 🚀",
       "confirmation", "completed"⟩
  | _ => none

/-- Fixed part of `_get_personalized_greeting` after the time-of-day salute. -/
def greetingBody : String :=
  "! 👋\n\nBem-vindo ao m.lima Advogados Associados.\n\nVocê está no lugar certo! Somos especialistas em Direito Penal e da Saúde, com mais de 1000 casos resolvidos e uma equipe experiente pronta para te ajudar.\n\n💼 Sabemos que questões jurídicas podem ser urgentes e complexas, por isso oferecemos:\n• Atendimento ágil e personalizado\n• Estratégias focadas em resultados\n• Acompanhamento completo do seu caso\n\nPara que eu possa direcionar você ao advogado especialista ideal e acelerar a solução do seu caso, preciso conhecer um pouco mais sobre sua situação.\n\nQual é o seu nome completo? 😊"

/-- `_get_personalized_greeting` as a function of the local hour. -/
def get_personalized_greeting (hour : Nat) : String :=
  (if 5 ≤ hour ∧ hour < 12 then "Bom dia"
   else if 12 ≤ hour ∧ hour < 18 then "Boa tarde"
   else "Boa noite") ++ greetingBody

/-- The step-specific `retry_messages` table of the invalid-answer branch
(`user_name` is the first name interpolated into the f-strings). -/
def retryMessage (step : String) (user_name : String) : Option String :=
  if step == "step1_name" then
    some "Por favor, me diga seu nome completo (nome e sobrenome, sem números). Exemplo: João Silva 😊"
  else if step == "step2_contact" then
    some ("Preciso de suas informações de contato, " ++ user_name ++ ". Me passe seu WhatsApp (com DDD) e/ou e-mail.")
  else if step == "step3_area" then
    some (user_name ++ ", preciso saber se é Direito Penal (crimes, investigações) ou Direito da Saúde (planos de saúde, liminares médicas).")
  else if step == "step4_details" then
    some ("Me conte mais detalhes sobre sua situação, " ++ user_name ++ ". Quanto mais informações, melhor poderemos te ajudar!")
  else if step == "step5_confirmation" then
    some ("Posso prosseguir com o registro das suas informações, " ++ user_name ++ "? (Responda: sim, ok, pode prosseguir)")
  else none

/-- `retry_messages.get(current_step, default)`. -/
def retryMessageD (step user_name : String) : String :=
  (retryMessage step user_name).getD "Por favor, me dê mais detalhes para que eu possa te ajudar melhor."

/-! ## Validation and extraction -/

/-- Keyword table of the `step3_area` validator. -/
def areaKeywords : List String :=
  ["penal", "criminal", "crime", "preso", "prisão", "delegacia", "inquérito",
   "saude", "saúde", "plano", "médico", "hospital", "cirurgia", "tratamento",
   "liminar", "ans", "convênio", "unimed", "bradesco", "amil"]

/-- Affirmative words of the `step5_confirmation` validator. -/
def confirmationWords : List String :=
  ["sim", "ok", "pode", "vamos", "claro", "certo", "confirmo"]

/-- `_validate_answer`: per-step validation of a raw inbound message. -/
def validate_answer (answer : String) (step : String) : Bool :=
  if answer == "" || (pyStrip answer).length < 2 then false
  else
    let answer_clean := pyStrip answer
    if step == "step1_name" then
      let words := pySplit answer_clean
      if words.length < 2 then false
      else if words.any (fun w => w.length < 2 || w.toList.any Char.isDigit) then false
      else decide (4 ≤ answer_clean.length ∧ answer_clean.length ≤ 50)
    else if step == "step2_contact" then
      hasPhoneDigits answer_clean || hasEmailPattern answer_clean
    else if step == "step3_area" then
      areaKeywords.any fun k => containsSub (pyLower answer_clean) k
    else if step == "step4_details" then
      decide (15 ≤ answer_clean.length)
    else if step == "step5_confirmation" then
      confirmationWords.any fun k => containsSub (pyLower answer_clean) k
    else true

/-- `_extract_contact_info`: first phone match and first e-mail match of the
contact answer (empty string when a pattern has no match). -/
def extract_contact_info (contact_text : String) : String × String :=
  ((extractPhone contact_text).getD "", (extractEmail contact_text).getD "")

/-- `_is_phone_number`: the message carries 10 to 13 digits in total. -/
def is_phone_number (message : String) : Bool :=
  let n := (message.toList.filter Char.isDigit).length
  decide (10 ≤ n ∧ n ≤ 13)

/-- `_interpolate_message` body (inside its `try`): substitute the first
name for `{user_name}` and the chosen area for `{area}`. -/
def interpolateE (message : String) (lead_data : LeadData) : Except String String :=
  if message == "" then .ok "Como posso ajudá-lo?"
  else
    let unv := getFieldD lead_data "identification"
    let step1 : Except String String :=
      if unv.truthy && containsSub message "{user_name}" then
        match unv with
        | .vstr s =>
          match pySplit s with
          | [] => .error "IndexError"
          | w :: _ => .ok (pyReplace message "{user_name}" w)
        | .vother _ => .error "AttributeError"
      else .ok message
    match step1 with
    | .error e => .error e
    | .ok msg1 =>
      let av := getFieldD lead_data "area_qualification"
      if av.truthy && containsSub msg1 "{area}" then
        match av.asStr with
        | .error e => .error e
        | .ok a => .ok (pyReplace msg1 "{area}" a)
      else .ok msg1

/-- `_interpolate_message`: its `except` clause returns the message
unchanged. -/
def interpolate_message (message : String) (lead_data : LeadData) : String :=
  match interpolateE message lead_data with
  | .ok m => m
  | .error _ => message

/-- `_format_brazilian_phone`.  (Its `except` clause is unreachable for a
genuine string argument: every operation in the body is total.) -/
def format_brazilian_phone (phone_clean : String) : String :=
  if phone_clean == "" then ""
  else
    let digits0 := phone_clean.toList.filter Char.isDigit
    let digits :=
      match digits0 with
      | '5' :: '5' :: rest => rest
      | l => l
    if digits.length == 8 then "55" ++ String.mk digits
    else if digits.length == 9 then "55" ++ String.mk digits
    else if digits.length == 10 then
      let ddd := digits.take 2
      let number := digits.drop 2
      let number :=
        if number.length == 8 &&
           (number.headD ' ' == '6' || number.headD ' ' == '7' ||
            number.headD ' ' == '8' || number.headD ' ' == '9')
        then '9' :: number else number
      "55" ++ String.mk ddd ++ String.mk number
    else if digits.length == 11 then
      "55" ++ String.mk (digits.take 2) ++ String.mk (digits.drop 2)
    else "55" ++ String.mk digits

/-! ## Completion: strategic message and lead finalization -/

/-- One entry of the `area_messages` table of
`_get_strategic_whatsapp_message`. -/
structure AreaMsgs where
  expertise : String
  urgency : String
  benefit : String
deriving DecidableEq, Repr

/-- `area_messages["penal"]`. -/
def areaMessagesPenal : AreaMsgs :=
  ⟨"Nossa equipe especializada em Direito Penal já resolveu centenas de casos similares",
   "Sabemos que situações criminais precisam de atenção IMEDIATA",
   "proteger seus direitos e buscar o melhor resultado possível"⟩

/-- `area_messages["saude"]`. -/
def areaMessagesSaude : AreaMsgs :=
  ⟨"Nossos advogados especialistas em Direito da Saúde têm expertise em ações contra planos",
   "Questões de saúde não podem esperar",
   "garantir seu tratamento e obter as coberturas devidas"⟩

/-- `area_messages["default"]`. -/
def areaMessagesDefault : AreaMsgs :=
  ⟨"Nossa equipe jurídica experiente",
   "Sua situação precisa de atenção especializada",
   "alcançar a solução mais eficaz para seu caso"⟩

/-- `_get_strategic_whatsapp_message` (the `phone_formatted` parameter is
unused, as in the code; raises where the code raises: taking the first name
of `user_name` and lowering a non-string `area`). -/
def strategicWhatsappMessageE (user_name area : Value) : Except String String :=
  match firstWordOr user_name "Cliente" with
  | .error e => .error e
  | .ok first_name =>
    match area.asStr with
    | .error e => .error e
    | .ok areaS =>
      let lowered := pyLower areaS
      let msgs :=
        if ["penal", "criminal", "crime"].any (fun w => containsSub lowered w) then
          areaMessagesPenal
        else if ["saude", "saúde", "plano", "medic"].any (fun w => containsSub lowered w) then
          areaMessagesSaude
        else areaMessagesDefault
      .ok ("🚀 " ++ first_name ++ ", uma EXCELENTE notícia!\n\n✅ Seu atendimento foi PRIORIZADO no sistema m.lima\n\n"
        ++ msgs.expertise ++ " com resultados comprovados e já foi IMEDIATAMENTE notificada sobre seu caso.\n\n🎯 "
        ++ msgs.urgency ++ " - por isso um advogado experiente entrará em contato com você nos PRÓXIMOS MINUTOS.\n\n🏆 DIFERENCIAL m.lima:\n• ⚡ Atendimento ágil e personalizado\n• 🎯 Estratégia focada em RESULTADOS\n• 📋 Acompanhamento completo do processo\n• 💪 Equipe com vasta experiência\n\nVocê fez a escolha certa ao confiar no m.lima para "
        ++ msgs.benefit ++ ".\n\n⏰ Aguarde nossa ligação - sua situação está em excelentes mãos!\n\n---\n✉️ m.lima Advogados Associados\n📱 Contato prioritário ativado")

/-- The recurring phone-extraction snippet of the finalization paths:
`lead_data.get("phone", "")`, falling back to the first `\d{10,11}` match in
`contact_info`; raises when `contact_info` is a truthy non-string (the
`re.search` argument). -/
def phoneCleanE (lead_data : LeadData) : Except String Value :=
  let pv := getFieldD lead_data "phone"
  if pv.truthy then .ok pv
  else
    let cv := getFieldD lead_data "contact_info"
    if cv.truthy then
      match cv.asStr with
      | .error e => .error e
      | .ok cs => .ok (.vstr ((extractPhone cs).getD ""))
    else .ok (.vstr "")

/-- `phone_clean and len(phone_clean) >= n`: truthiness first, then the
(raising, on a non-string) length test. -/
def phoneLenAtLeastE (v : Value) (n : Nat) : Except String Bool :=
  if v.truthy then
    match v.asStr with
    | .error e => .error e
    | .ok s => .ok (decide (n ≤ s.length))
  else .ok false

/-- Body of `_handle_lead_finalization` (inside its `try`).  Returns the
closing message, the resulting in-memory session and the side-effect trace.
Side effects already performed when a later operation raises are not
replayed on the error path (no theorem depends on them).  In the non-web
branch the code's inner `platform == "web"` message selections are
unreachable and modelled by their `else` arms. -/
def leadFinalizationE (session_id : String) (s : Session) (env : Env) :
    Except String (String × Session × List Event) :=
  let lead_data := s.lead_data
  let platform := s.platform
  match firstWordOr (getFieldOr lead_data "identification" (.vstr "Cliente")) "Cliente" with
  | .error e => .error e
  | .ok first_name =>
    if platform == "web" then
      let nr := notify_lawyers_if_qualified session_id s platform env.notifyOutcome2
      let ev1 := nr.2.2 ++ [Event.leadSaved]
      match phoneCleanE lead_data with
      | .error e => .error e
      | .ok phoneV =>
        match phoneLenAtLeastE phoneV 10 with
        | .error e => .error e
        | .ok sendTest =>
          let phoneStr := match phoneV with | .vstr str => str | .vother _ => ""
          let ev2 := if sendTest then ev1 ++ [Event.whatsappSend phoneStr] else ev1
          let notification_status :=
            if nr.1.notified && nr.1.success then " ⚡ Nossa equipe foi imediatamente notificada!" else ""
          .ok ("Perfeito, " ++ first_name ++ "! ✅\n\nTodas suas informações foram registradas com sucesso"
            ++ notification_status
            ++ "\n\nUm advogado experiente do m.lima entrará em contato com você em breve para dar prosseguimento ao seu caso com toda atenção necessária.\n\nVocê fez a escolha certa ao confiar no escritório m.lima! 🤝\n\nNossa equipe entrará em contato em alguns minutos.",
            nr.2.1, ev2)
    else
      match phoneCleanE lead_data with
      | .error e => .error e
      | .ok phoneV =>
        match phoneLenAtLeastE phoneV 10 with
        | .error e => .error e
        | .ok okPhone =>
          if ¬ okPhone then
            .ok ("Para finalizar, " ++ first_name ++ ", preciso do seu WhatsApp com DDD (ex: 11999999999):", s, [])
          else
            let phone_clean := match phoneV with | .vstr str => str | .vother _ => ""
            let phone_formatted := format_brazilian_phone phone_clean
            let s2 := { s with phone_number := some phone_clean,
                               phone_formatted := some phone_formatted,
                               phone_submitted := true, lead_qualified := true,
                               last_updated := env.now }
            let ev1 := [Event.sessionSaved session_id s2]
            let nr := notify_lawyers_if_qualified session_id s2 platform env.notifyOutcome2
            let ev2 := ev1 ++ nr.2.2 ++ [Event.leadSaved]
            match strategicWhatsappMessageE (getFieldOr lead_data "identification" (.vstr "Cliente"))
                (getFieldOr lead_data "area_qualification" (.vstr "direito")) with
            | .error e => .error e
            | .ok _whatsapp_message =>
              let whatsapp_success := env.whatsappSendOk
              let ev3 := ev2 ++ [Event.whatsappSend phone_formatted]
              let notification_status :=
                if nr.1.notified && nr.1.success then " ⚡ Nossa equipe foi imediatamente notificada!" else ""
              .ok ("Perfeito, " ++ first_name ++ "! ✅\n\nTodas suas informações foram registradas com sucesso"
                ++ notification_status
                ++ "\n\nUm advogado experiente do m.lima entrará em contato com você em breve para dar prosseguimento ao seu caso com toda atenção necessária.\n\n"
                ++ (if whatsapp_success then "📱 Mensagem de confirmação enviada no seu WhatsApp!"
                    else "📝 Suas informações foram salvas com segurança.")
                ++ "\n\nVocê fez a escolha certa ao confiar no escritório m.lima para cuidar do seu caso! 🤝\n\nEm alguns minutos, um especialista entrará em contato.",
                nr.2.1, ev3)

/-- `_handle_lead_finalization` with its `except` clause (which recomputes a
first name and may itself raise, propagating to the caller). -/
def handle_lead_finalization (session_id : String) (s : Session) (env : Env) :
    Except String (String × Session × List Event) :=
  match leadFinalizationE session_id s env with
  | .ok r => .ok r
  | .error _ =>
    match condFirstWord s.lead_data with
    | .error e => .error e
    | .ok first_name =>
      .ok ("Obrigado pelas informações, " ++ first_name ++ "! Nossa equipe entrará em contato em breve. 😊",
        s, [])

/-- Body of `_handle_phone_collection` (inside its `try`). -/
def phoneCollectionBodyE (phone_message session_id : String) (s : Session) (env : Env) :
    Except String (String × Session × List Event) :=
  let phone_clean := String.mk (phone_message.toList.filter Char.isDigit)
  match condFirstWord s.lead_data with
  | .error e => .error e
  | .ok first_name =>
    if phone_clean.length < 10 ∨ 13 < phone_clean.length then
      .ok ("Ops, " ++ first_name ++ "! Número inválido. Digite seu WhatsApp com DDD (ex: 11999999999):", s, [])
    else
      let s1 := { s with lead_data := setField s.lead_data "phone" (.vstr phone_clean) }
      handle_lead_finalization session_id s1 env

/-- `_handle_phone_collection` with its `except` clause (which may itself
raise, propagating to `process_message`). -/
def handle_phone_collection (phone_message session_id : String) (s : Session) (env : Env) :
    Except String (String × Session × List Event) :=
  match phoneCollectionBodyE phone_message session_id s env with
  | .ok r => .ok r
  | .error _ =>
    match condFirstWord s.lead_data with
    | .error e => .error e
    | .ok first_name =>
      .ok ("Obrigado, " ++ first_name ++ "! Nossa equipe entrará em contato em breve. 😊", s, [])

/-! ## The conversation flow and the facade -/

/-- `_process_conversation_flow`.  Total: every raising point of the body is
matched explicitly, and the function's own `except` clause returns the
personalized greeting.  Returns the response text, the resulting in-memory
session and the side-effect trace. -/
def process_conversation_flow (s : Session) (message : String) (env : Env) :
    String × Session × List Event :=
  let session_id := s.session_id
  if s.first_interaction then
    let s1 := { s with first_interaction := false }
    (get_personalized_greeting env.hour, s1, [Event.sessionSaved session_id s1])
  else if s.current_step == "completed" then
    match condFirstWord s.lead_data with
    | .ok first_name =>
      ("Obrigado, " ++ first_name ++ "! Nossa equipe já foi notificada e entrará em contato em breve. 😊",
       s, [])
    | .error _ => (get_personalized_greeting env.hour, s, [])
  else
    match flowSteps s.current_step with
    | some step_config =>
      if ¬ validate_answer message s.current_step then
        match condFirstWord s.lead_data with
        | .ok first_name => (retryMessageD s.current_step first_name, s, [])
        | .error _ => (get_personalized_greeting env.hour, s, [])
      else
        let ld1 := setField s.lead_data step_config.field (.vstr (pyStrip message))
        let ld2 :=
          if s.current_step == "step2_contact" then
            let pe := extract_contact_info message
            let lda := if pe.1 ≠ "" then setField ld1 "phone" (.vstr pe.1) else ld1
            if pe.2 ≠ "" then setField lda "email" (.vstr pe.2) else lda
          else ld1
        let s1 := { s with lead_data := ld2 }
        let nr := notify_lawyers_if_qualified session_id s1 s.platform env.notifyOutcome1
        if step_config.next_step == "completed" then
          let s3 := { nr.2.1 with current_step := "completed", flow_completed := true }
          let ev2 := nr.2.2 ++ [Event.sessionSaved session_id s3]
          match handle_lead_finalization session_id s3 env with
          | .ok r => (r.1, r.2.1, ev2 ++ r.2.2)
          | .error _ => (get_personalized_greeting env.hour, s3, ev2)
        else
          let s3 := { nr.2.1 with current_step := step_config.next_step }
          let ev2 := nr.2.2 ++ [Event.sessionSaved session_id s3]
          match flowSteps step_config.next_step with
          | some next_config => (interpolate_message next_config.question ld2, s3, ev2)
          | none => (get_personalized_greeting env.hour, s3, ev2)
    | none =>
      let s1 := { s with current_step := "step1_name", first_interaction := true }
      (get_personalized_greeting env.hour, s1, [Event.sessionSaved session_id s1])

/-- Session TTL, 24 hours in seconds (spec §5). -/
def sessionTTL : Nat := 24 * 60 * 60

/-- Modelled from the spec: `get_user_session` lives in
`app/services/firebase_service.py`, which is not among the sources (only
its call sites are).  Per the spec, "Sessions older than a TTL are
treated as expired and replaced with a fresh session rather than resumed"
and "sessions idle beyond a configurable window (e.g., 24h) are treated as
nonexistent on next access and replaced, not resumed; ... lazy expiry is
sufficient": the store lookup reports no session when the stored session's
`last_updated` lies more than `sessionTTL` seconds before `now`. -/
def get_user_session (stored : Option Session) (now : Nat) : Option Session :=
  match stored with
  | none => none
  | some s => if sessionTTL < now - s.last_updated then none else some s

/-- The fresh session dict built by `_get_or_create_session` (the Python
dict has no `lead_qualified` key; every read uses default `False`, which the
structure default models). -/
def freshSession (session_id platform : String) (now : Nat) : Session :=
  { session_id := session_id, platform := platform, current_step := "step1_name",
    lead_data := [], message_count := 0, flow_completed := false,
    phone_submitted := false, lawyers_notified := false, lead_qualified := false,
    first_interaction := true, phone_number := none, phone_formatted := none,
    last_updated := now }

/-- `_get_or_create_session`: load via the store (with lazy TTL expiry), or
create and save a fresh session; a caller-supplied phone number is attached
after the lookup/save, on either path. -/
def get_or_create_session (stored : Option Session) (session_id platform : String)
    (phone_number : Option String) (env : Env) : Session × List Event :=
  let base :=
    match get_user_session stored env.now with
    | some s => (s, ([] : List Event))
    | none =>
      let fresh := freshSession session_id platform env.now
      (fresh, [Event.sessionSaved session_id fresh])
  match phone_number with
  | some p => ({ base.1 with phone_number := some p }, base.2)
  | none => base

/-- The dict returned by `process_message`.  A field holding `none` models a
response dict WITHOUT that key (not a key holding `None`). -/
structure ProcessResult where
  response_type : String
  platform : String
  session_id : String
  response : String
  ai_mode : Option Bool := none
  current_step : Option String := none
  flow_completed : Option Bool := none
  lawyers_notified : Option Bool := none
  lead_data : Option LeadData := none
  message_count : Option Nat := none
  qualification_score : Option Nat := none
  phone_submitted : Option Bool := none
  error : Option String := none
deriving DecidableEq, Repr

/-- `process_message`, the facade entry point: session load/creation, the
phone-collection shortcut for qualified leads, the conversation flow, the
counter update and final save, and the response envelope.  The outer
`except` clause returns the `orchestration_error` envelope (whose
`response` is the greeting: the greeting is never empty, so its `or`
fallback is unreachable); side effects performed before a propagated
exception are not replayed on that path. -/
def process_message (stored : Option Session) (message session_id : String)
    (phone_number : Option String) (platform : String) (env : Env) :
    ProcessResult × List Event :=
  let gc := get_or_create_session stored session_id platform phone_number env
  let s := gc.1
  if s.lead_qualified && !s.phone_submitted && is_phone_number message then
    match handle_phone_collection message session_id s env with
    | .ok r =>
      ({ response_type := "phone_collected", platform := platform, session_id := session_id,
         response := r.1, phone_submitted := some true,
         message_count := some (s.message_count + 1) }, gc.2 ++ r.2.2)
    | .error e =>
      ({ response_type := "orchestration_error", platform := platform, session_id := session_id,
         response := get_personalized_greeting env.hour, error := some e }, gc.2)
  else
    let fr := process_conversation_flow s message env
    let s2 := { fr.2.1 with message_count := fr.2.1.message_count + 1, last_updated := env.now }
    let response := if fr.1 == "" then "Como posso ajudá-lo hoje?" else fr.1
    ({ response_type := platform ++ "_flow", platform := platform, session_id := session_id,
       response := response, ai_mode := some false,
       current_step := some s2.current_step,
       flow_completed := some s2.flow_completed,
       lawyers_notified := some s2.lawyers_notified,
       lead_data := some s2.lead_data,
       message_count := some s2.message_count,
       qualification_score := some (calculate_qualification_score s2.lead_data platform) },
     gc.2 ++ fr.2.2 ++ [Event.sessionSaved session_id s2])

/-- The dict returned by `get_session_context`; `none` models an absent key. -/
structure SessionContext where
  exists_ : Bool
  session_id : Option String := none
  platform : Option String := none
  current_step : Option String := none
  flow_completed : Option Bool := none
  phone_submitted : Option Bool := none
  lawyers_notified : Option Bool := none
  lead_data : Option LeadData := none
  message_count : Option Nat := none
  qualification_score : Option Nat := none
deriving DecidableEq, Repr

/-- `get_session_context`: the read-only session snapshot.  When the store
reports no session the code returns the bare `{"exists": False}` dict.  (No
operation of the body raises — `_calculate_qualification_score` catches its
own errors — so the `except` clause, which returns `{"exists": False}` plus
an `error` key, is unreachable.) -/
def get_session_context (stored : Option Session) (now : Nat) (session_id : String) :
    SessionContext :=
  match get_user_session stored now with
  | none => { exists_ := false }
  | some s =>
    { exists_ := true, session_id := some session_id, platform := some s.platform,
      current_step := some s.current_step, flow_completed := some s.flow_completed,
      phone_submitted := some s.phone_submitted, lawyers_notified := some s.lawyers_notified,
      lead_data := some s.lead_data, message_count := some s.message_count,
      qualification_score := some (calculate_qualification_score s.lead_data s.platform) }

/-- Contents of the session store after a trace of side effects: the last
`save_user_session` wins. -/
def finalStored (stored : Option Session) (events : List Event) : Option Session :=
  events.foldl
    (fun acc e =>
      match e with
      | .sessionSaved _ s => some s
      | _ => acc)
    stored

/-! ## Step order and concrete sessions used by witnesses -/

/-- Position of a step in the flow order (`none` for strings outside the
state space). -/
def stepIndex : String → Option Nat
  | "step1_name" => some 1
  | "step2_contact" => some 2
  | "step3_area" => some 3
  | "step4_details" => some 4
  | "step5_confirmation" => some 5
  | "completed" => some 6
  | _ => none

/-- Default oracle environment for concrete evaluations. -/
def env0 : Env := {}

/-- A web session whose lead data meets every web notification criterion
(nine score tenths: full name, phone contact, recognized area, long
case details). -/
def qualWebSession : Session :=
  { session_id := "sid-web", platform := "web", current_step := "step5_confirmation",
    lead_data := [("identification", .vstr "Joao Silva"),
                  ("contact_info", .vstr "11987654321"),
                  ("area_qualification", .vstr "penal"),
                  ("case_details", .vstr "Processo criminal em andamento, preciso de ajuda urgente")],
    message_count := 5, flow_completed := true, phone_submitted := false,
    lawyers_notified := false, lead_qualified := false, first_interaction := false,
    last_updated := 1000 }

/-- A completed session (side effects done: lawyers notified). -/
def completedSession : Session :=
  { session_id := "sid-done", platform := "web", current_step := "completed",
    lead_data := [("identification", .vstr "Joao Silva")],
    message_count := 6, flow_completed := true, phone_submitted := false,
    lawyers_notified := true, lead_qualified := false, first_interaction := false,
    last_updated := 1000 }

/-- A session waiting at step 1 (past the greeting). -/
def step1Session : Session :=
  { session_id := "sid-s1", platform := "web", current_step := "step1_name",
    lead_data := [], message_count := 1, flow_completed := false,
    phone_submitted := false, lawyers_notified := false, lead_qualified := false,
    first_interaction := false, last_updated := 1000 }

/-- A session waiting at the contact step whose `lead_data` already holds a
`phone` entry. -/
def step2PhoneSession : Session :=
  { session_id := "sid-s2", platform := "web", current_step := "step2_contact",
    lead_data := [("identification", .vstr "Joao Silva"),
                  ("phone", .vstr "1111111111")],
    message_count := 2, flow_completed := false, phone_submitted := false,
    lawyers_notified := false, lead_qualified := false, first_interaction := false,
    last_updated := 1000 }

/-- A qualified WhatsApp lead that has not submitted a phone number yet
(the state that routes an all-digits message into `_handle_phone_collection`). -/
def qualLeadSession : Session :=
  { session_id := "sid-lead", platform := "whatsapp", current_step := "completed",
    lead_data := [], message_count := 5, flow_completed := true,
    phone_submitted := false, lawyers_notified := true, lead_qualified := true,
    first_interaction := false, last_updated := 0 }

/-- A session whose `identification` holds a truthy non-string, so that
every `.strip()`/`split()` on it raises. -/
def errorSession : Session :=
  { session_id := "sid-err", platform := "web", current_step := "step5_confirmation",
    lead_data := [("identification", .vother true),
                  ("contact_info", .vstr "11987654321"),
                  ("area_qualification", .vstr "penal"),
                  ("case_details", .vstr "Processo criminal em andamento, preciso de ajuda urgente")],
    message_count := 5, flow_completed := true, phone_submitted := false,
    lawyers_notified := false, lead_qualified := false, first_interaction := false,
    last_updated := 1000 }

/-- An old session, last updated 25 hours before `ttlNow`. -/
def staleSession : Session :=
  { session_id := "sid-old", platform := "web", current_step := "step4_details",
    lead_data := [("identification", .vstr "Joao Silva")],
    message_count := 4, flow_completed := false, phone_submitted := false,
    lawyers_notified := false, lead_qualified := false, first_interaction := false,
    last_updated := 0 }

/-- A clock 25 hours after `staleSession.last_updated`. -/
def ttlNow : Nat := 25 * 60 * 60

/-- The five step fields of the flow table. -/
def stepFields : List String :=
  ["identification", "contact_info", "area_qualification", "case_details", "confirmation"]

/-- The `lead_data` produced by the valid-answer path of
`_process_conversation_flow`: the stripped answer merged into the current
step's field, plus — on the contact step — the extracted phone/e-mail
sub-fields. -/
def mergedLead (s : Session) (message : String) : LeadData :=
  let step_config := (flowSteps s.current_step).getD ⟨"", "", ""⟩
  let ld1 := setField s.lead_data step_config.field (.vstr (pyStrip message))
  if s.current_step == "step2_contact" then
    let pe := extract_contact_info message
    let lda := if pe.1 ≠ "" then setField ld1 "phone" (.vstr pe.1) else ld1
    if pe.2 ≠ "" then setField lda "email" (.vstr pe.2) else lda
  else ld1

/-- The session state saved by the completion arm of
`_process_conversation_flow` just before the finalization hand-off: merged
lead data, the in-flow notification effect applied, `current_step` moved to
`completed` and `flow_completed` set. -/
def completionState (s : Session) (message : String) (env : Env) : Session :=
  { (notify_lawyers_if_qualified s.session_id { s with lead_data := mergedLead s message }
      s.platform env.notifyOutcome1).2.1 with
    current_step := "completed", flow_completed := true }

/-- The ordering property the spec demands of completion side effects: every
dispatch to the lawyer-notification service is preceded in the trace by a
session save already carrying `lawyers_notified = true` (set-before-send). -/
def setBeforeSend (tr : List Event) : Prop :=
  ∀ i sid, tr.get? i = some (.notifySend sid) →
    ∃ j, j < i ∧ ∃ sid2 sx, tr.get? j = some (.sessionSaved sid2 sx) ∧ sx.lawyers_notified = true

/-- Did an embedded Python computation complete without raising? -/
def exceptOk {α : Type} : Except String α → Bool
  | .ok _ => true
  | .error _ => false

/-! ## Helper lemmas -/

theorem shouldNotify_false_of_notified (s : Session) (p : String)
    (h : s.lawyers_notified = true) :
    (should_notify_lawyers s p).should_notify = false := by
  simp [should_notify_lawyers, shouldNotifyE, h]

theorem notify_session_cases (sid : String) (s : Session) (p : String) (o : NotifyOutcome) :
    (notify_lawyers_if_qualified sid s p o).2.1 = s ∨
    (notify_lawyers_if_qualified sid s p o).2.1 = { s with lawyers_notified := true } := by
  cases o <;>
    (unfold notify_lawyers_if_qualified;
     by_cases h : (should_notify_lawyers s p).should_notify = true <;> simp [h])

theorem notify_trace_shape (sid : String) (s : Session) (p : String) (o : NotifyOutcome) :
    (notify_lawyers_if_qualified sid s p o).2.2 = [] ∨
    (notify_lawyers_if_qualified sid s p o).2.2 = [.notifySend sid] ∨
    (notify_lawyers_if_qualified sid s p o).2.2 =
      [.notifySend sid, .sessionSaved sid { s with lawyers_notified := true }] := by
  cases o <;>
    (unfold notify_lawyers_if_qualified;
     by_cases h : (should_notify_lawyers s p).should_notify = true <;> simp [h])

theorem getField_setField (d : LeadData) (k k2 : String) (v : Value) :
    getField (setField d k v) k2 = if k2 = k then some v else getField d k2 := by
  induction d with
  | nil =>
    simp only [setField, getField]
    rcases eq_or_ne k2 k with h | h
    · simp [h]
    · simp [h, Ne.symm h]
  | cons kv t ih =>
    obtain ⟨k0, v0⟩ := kv
    simp only [setField]
    rcases eq_or_ne k0 k with h0 | h0
    · subst h0
      rcases eq_or_ne k2 k0 with h | h
      · simp [getField, h]
      · simp [getField, h, Ne.symm h]
    · simp only [beq_eq_false_iff_ne.mpr h0, Bool.false_eq_true, if_false]
      rcases eq_or_ne k2 k0 with h2 | h2
      · have hk : k2 ≠ k := fun hh => h0 (h2.symm.trans hh)
        simp [getField, h2.symm, hk]
      · simp [getField, Ne.symm h2, ih]

/-! ## Claim theorems -/

/-- C2: at most one successful lawyer-notification dispatch per session:
once `lawyers_notified` is set a `should_notify_lawyers` decision is always
negative, and once `notify_lawyers_if_qualified` has succeeded (storing the
flag on the session) an immediately repeated run on the resulting session
decides negatively and dispatches nothing. -/
theorem C2_notification_idempotent (sid p : String) (s : Session) (o1 o2 : NotifyOutcome) :
    (s.lawyers_notified = true → (should_notify_lawyers s p).should_notify = false)
    ∧ ((notify_lawyers_if_qualified sid s p o1).1.success = true →
        (notify_lawyers_if_qualified sid s p o1).2.1.lawyers_notified = true
        ∧ (should_notify_lawyers (notify_lawyers_if_qualified sid s p o1).2.1 p).should_notify = false
        ∧ (notify_lawyers_if_qualified sid
            (notify_lawyers_if_qualified sid s p o1).2.1 p o2).1.notified = false
        ∧ (notify_lawyers_if_qualified sid
            (notify_lawyers_if_qualified sid s p o1).2.1 p o2).2.2 = []) := by
  constructor
  · exact shouldNotify_false_of_notified s p
  · intro hsucc
    by_cases hc : (should_notify_lawyers s p).should_notify = true
    · cases o1 with
      | success =>
        refine ⟨?_, ?_, ?_, ?_⟩ <;>
          simp [notify_lawyers_if_qualified, hc, shouldNotify_false_of_notified]
      | failure => simp [notify_lawyers_if_qualified, hc] at hsucc
      | raised => simp [notify_lawyers_if_qualified, hc] at hsucc
    · simp [notify_lawyers_if_qualified, hc] at hsucc

/-- C2 witness: a successful dispatch on the qualified web session, after
which the repeated run does not dispatch. -/
theorem C2_witness :
    (notify_lawyers_if_qualified "sid-web" qualWebSession "web" .success).1.success = true
    ∧ (notify_lawyers_if_qualified "sid-web"
        (notify_lawyers_if_qualified "sid-web" qualWebSession "web" .success).2.1
        "web" .success).1.notified = false :=
  ⟨by decide,
   ((C2_notification_idempotent "sid-web" "web" qualWebSession .success .success).2
     (by decide)).2.2.1⟩

/-- C3 counterexample: on a qualified session with a successful dispatch,
the trace of `notify_lawyers_if_qualified` has the dispatch first and the
flag-bearing session save after it, so the claimed set-before-send order is
violated. -/
theorem C3_counterexample :
    ¬ setBeforeSend (notify_lawyers_if_qualified "sid-web" qualWebSession "web" .success).2.2 := by
  intro h
  obtain ⟨j, hj, -⟩ := h 0 "sid-web" (by decide)
  omega

/-- C3 amended: the code is send-before-set: whenever the notification path
saves a session, that saved session carries `lawyers_notified = true`, the
service outcome was a success, and a dispatch attempt strictly precedes the
save in the trace. -/
theorem C3_amended_send_before_set (sid : String) (s : Session) (p : String) (o : NotifyOutcome) :
    ∀ j sid2 sx,
      (notify_lawyers_if_qualified sid s p o).2.2.get? j = some (.sessionSaved sid2 sx) →
      sx.lawyers_notified = true ∧ o = .success ∧
      ∃ i, i < j ∧ (notify_lawyers_if_qualified sid s p o).2.2.get? i
          = some (.notifySend sid) := by
  intro j sid2 sx hj
  by_cases hc : (should_notify_lawyers s p).should_notify = true
  · cases o with
    | success =>
      simp only [notify_lawyers_if_qualified, hc, if_true] at hj ⊢
      match j, hj with
      | 1, hj =>
        simp only [List.get?, Option.some.injEq, Event.sessionSaved.injEq] at hj
        obtain ⟨h1, h2⟩ := hj
        subst h2
        exact ⟨rfl, by trivial, 0, by omega, by simp [List.get?]⟩
      | 0, hj => simp [List.get?] at hj
      | (n + 2), hj => simp [List.get?] at hj
    | failure =>
      simp only [notify_lawyers_if_qualified, hc, if_true] at hj
      match j, hj with
      | 0, hj => simp [List.get?] at hj
      | (n + 1), hj => simp [List.get?] at hj
    | raised =>
      simp only [notify_lawyers_if_qualified, hc, if_true] at hj
      match j, hj with
      | 0, hj => simp [List.get?] at hj
      | (n + 1), hj => simp [List.get?] at hj
  · cases o <;> simp [notify_lawyers_if_qualified, hc, List.get?] at hj

/-- C3 amended witness: on the qualified web session the save sits at index
one with the dispatch at index zero. -/
theorem C3_amended_witness :
    ({ qualWebSession with lawyers_notified := true } : Session).lawyers_notified = true
    ∧ ∃ i, i < 1 ∧ (notify_lawyers_if_qualified "sid-web" qualWebSession "web" .success).2.2.get? i
        = some (.notifySend "sid-web") := by
  have h := C3_amended_send_before_set "sid-web" qualWebSession "web" .success 1 "sid-web"
    { qualWebSession with lawyers_notified := true } (by decide)
  exact ⟨h.1, h.2.2⟩

/-- C10: the notification decision is total and fail-closed: when the
decision body raises, the caught result decides not to notify, and when the
score calculation raises, the caught score is zero — an internal error can
suppress a notification but never cause one. -/
theorem C10_fail_closed (s : Session) (p : String) :
    (exceptOk (shouldNotifyE s p) = false → (should_notify_lawyers s p).should_notify = false)
    ∧ (exceptOk (qualificationScoreE s.lead_data) = false →
        calculate_qualification_score s.lead_data p = 0) := by
  constructor
  · intro h
    unfold should_notify_lawyers
    cases he : shouldNotifyE s p with
    | ok d => rw [he] at h; simp [exceptOk] at h
    | error e => simp
  · intro h
    unfold calculate_qualification_score
    cases he : qualificationScoreE s.lead_data with
    | ok n => rw [he] at h; simp [exceptOk] at h
    | error e => simp

/-- C10 witness: a session whose `identification` is a truthy non-string
makes both evaluations raise; the caught results are a negative decision
and a zero score. -/
theorem C10_witness :
    (should_notify_lawyers errorSession "web").should_notify = false
    ∧ calculate_qualification_score errorSession.lead_data "web" = 0 :=
  ⟨(C10_fail_closed errorSession "web").1 (by decide),
   (C10_fail_closed errorSession "web").2 (by decide)⟩

theorem string_append_ne_empty (a b : String) (h : a ≠ "") : a ++ b ≠ "" := by
  obtain ⟨la⟩ := a
  obtain ⟨lb⟩ := b
  intro hh
  apply h
  have hd : la ++ lb = [] := congrArg String.data hh
  have hla : la = [] := (List.append_eq_nil.mp hd).1
  simp [hla]

theorem greeting_ne_empty (h : Nat) : (get_personalized_greeting h == "") = false := by
  rw [beq_eq_false_iff_ne]
  unfold get_personalized_greeting
  split
  · exact string_append_ne_empty _ _ (by decide)
  · split
    · exact string_append_ne_empty _ _ (by decide)
    · exact string_append_ne_empty _ _ (by decide)

/-- C1 (code-bug evidence): two reachable return paths produce envelopes
without any `lead_data` key — the phone-collection path of
`process_message` and the missing-session path of `get_session_context`. -/
theorem C1_lead_data_key_missing :
    (process_message (some qualLeadSession) "11987654321" "sid-lead" none "whatsapp" env0).1.response_type
        = "phone_collected"
    ∧ (process_message (some qualLeadSession) "11987654321" "sid-lead" none "whatsapp" env0).1.lead_data
        = none
    ∧ (get_session_context none 0 "missing-session").exists_ = false
    ∧ (get_session_context none 0 "missing-session").lead_data = none := by
  refine ⟨by decide, by decide, rfl, rfl⟩

/-- C8 (spec-modelled store): a stored session idle for longer than the
24-hour TTL is reported as nonexistent by the (spec-modelled) store lookup,
so the orchestrator builds and saves a fresh session starting at step one
with empty lead data, and processing the inbound message returns the
greeting instead of resuming the old step. -/
theorem C8_ttl_expired_fresh_session (stored : Session) (msg sid p : String)
    (pn : Option String) (env : Env)
    (h : sessionTTL < env.now - stored.last_updated) :
    get_user_session (some stored) env.now = none
    ∧ (get_or_create_session (some stored) sid p pn env).1.current_step = "step1_name"
    ∧ (get_or_create_session (some stored) sid p pn env).1.lead_data = []
    ∧ (get_or_create_session (some stored) sid p pn env).1.first_interaction = true
    ∧ (process_message (some stored) msg sid pn p env).1.response = get_personalized_greeting env.hour
    ∧ (process_message (some stored) msg sid pn p env).1.current_step = some "step1_name"
    ∧ (process_message (some stored) msg sid pn p env).1.lead_data = some [] := by
  have hg : get_user_session (some stored) env.now = none := by
    simp [get_user_session, h]
  cases pn with
  | none =>
    refine ⟨hg, ?_, ?_, ?_, ?_, ?_, ?_⟩ <;>
      simp [get_or_create_session, hg, freshSession, process_message,
        process_conversation_flow, greeting_ne_empty]
  | some ph =>
    refine ⟨hg, ?_, ?_, ?_, ?_, ?_, ?_⟩ <;>
      simp [get_or_create_session, hg, freshSession, process_message,
        process_conversation_flow, greeting_ne_empty]

/-- C8 witness: a session last updated 25 hours before `ttlNow` is replaced
and the reply is the greeting-plus-step-one opening. -/
theorem C8_witness :
    sessionTTL < ttlNow - staleSession.last_updated
    ∧ (process_message (some staleSession) "hello" "sid-old" none "web"
        { env0 with now := ttlNow }).1.current_step = some "step1_name" :=
  ⟨by decide,
   (C8_ttl_expired_fresh_session staleSession "hello" "sid-old" "web" none
     { env0 with now := ttlNow } (by decide)).2.2.2.2.2.1⟩

/-- C9 counterexample: a new message for a completed session (side effects
finished: `lawyers_notified = true`) is answered with the static thank-you
text and the stored session keeps `current_step = "completed"` with
`first_interaction = false` — it is not replaced by a fresh initial session
and the message is not reprocessed. -/
theorem C9_counterexample :
    (process_message (some completedSession) "hello again" "sid-done" none "web" env0).1.response
      = "Obrigado, Joao! Nossa equipe já foi notificada e entrará em contato em breve. 😊"
    ∧ (process_message (some completedSession) "hello again" "sid-done" none "web" env0).1.current_step
      = some "completed"
    ∧ finalStored (some completedSession)
        (process_message (some completedSession) "hello again" "sid-done" none "web" env0).2
      = some { completedSession with message_count := 7, last_updated := 0 }
    ∧ ({ completedSession with message_count := 7, last_updated := 0 } : Session).current_step
      = "completed"
    ∧ ({ completedSession with message_count := 7, last_updated := 0 } : Session).first_interaction
      = false := by
  refine ⟨by decide, by decide, by decide, rfl, rfl⟩

/-- C9 amended: the code has no auto-restart: every message for a resumed
completed session is acknowledged with the fixed thank-you text (built from
the lead's first name) and the session is saved with `current_step` still
`completed` and `lead_data` untouched. -/
theorem C9_amended_completed_acknowledged (stored : Session) (msg sid p : String)
    (pn : Option String) (env : Env) (u : String)
    (hres : get_user_session (some stored) env.now = some stored)
    (hstep : stored.current_step = "completed")
    (hql : stored.lead_qualified = false)
    (hfi : stored.first_interaction = false)
    (hname : condFirstWord stored.lead_data = .ok u) :
    (process_message (some stored) msg sid pn p env).1.response
      = "Obrigado, " ++ u ++ "! Nossa equipe já foi notificada e entrará em contato em breve. 😊"
    ∧ (process_message (some stored) msg sid pn p env).1.current_step = some "completed"
    ∧ ∃ s2, finalStored (some stored) (process_message (some stored) msg sid pn p env).2 = some s2
        ∧ s2.current_step = "completed"
        ∧ s2.lead_data = stored.lead_data
        ∧ s2.first_interaction = false := by
  have hne : ("Obrigado, " ++ u
      ++ "! Nossa equipe já foi notificada e entrará em contato em breve. 😊" == "") = false := by
    rw [beq_eq_false_iff_ne]
    exact string_append_ne_empty _ _ (string_append_ne_empty _ _ (by decide))
  cases pn with
  | none =>
    refine ⟨?_, ?_, ?_⟩ <;>
      simp [process_message, get_or_create_session, hres, hql, hfi, hstep,
        process_conversation_flow, hname, hne, finalStored]
  | some ph =>
    refine ⟨?_, ?_, ?_⟩ <;>
      simp [process_message, get_or_create_session, hres, hql, hfi, hstep,
        process_conversation_flow, hname, hne, finalStored]

/-- C9 amended witness: the concrete completed session is acknowledged with
the thank-you text addressed to its first name. -/
theorem C9_amended_witness :
    (process_message (some completedSession) "oi" "sid-done" none "web" env0).1.current_step
      = some "completed"
    ∧ (process_message (some completedSession) "oi" "sid-done" none "web" env0).1.response
      = "Obrigado, " ++ "Joao" ++ "! Nossa equipe já foi notificada e entrará em contato em breve. 😊" := by
  have h := C9_amended_completed_acknowledged completedSession "oi" "sid-done" "web" none env0 "Joao"
    (by decide) rfl rfl rfl rfl
  exact ⟨h.2.1, h.1⟩

/-- C5 counterexample: at step one the invalid answer `"x"` is answered with
the step-specific retry prompt, which does not contain (hence does not
re-emit, with or without a clarifying prefix) the step's question text. -/
theorem C5_counterexample :
    validate_answer "x" step1Session.current_step = false
    ∧ (process_conversation_flow step1Session "x" env0).1 = retryMessageD "step1_name" ""
    ∧ containsSub (process_conversation_flow step1Session "x" env0).1
        ((flowSteps "step1_name").getD ⟨"", "", ""⟩).question = false := by
  refine ⟨by decide, by decide, by decide⟩

/-- C5 amended: an answer failing the current collecting step's validator is
answered with that step's fixed retry prompt (not the step's original
question text), and the session — in particular `lead_data` and
`current_step` — is left unchanged, with no side effects. -/
theorem C5_amended_invalid_keeps_state (s : Session) (msg : String) (env : Env)
    (cfg : FlowStep) (u : String)
    (hfi : s.first_interaction = false)
    (hstep : flowSteps s.current_step = some cfg)
    (hv : validate_answer msg s.current_step = false)
    (hname : condFirstWord s.lead_data = .ok u) :
    (process_conversation_flow s msg env).1 = retryMessageD s.current_step u
    ∧ (process_conversation_flow s msg env).2.1 = s
    ∧ (process_conversation_flow s msg env).2.1.lead_data = s.lead_data
    ∧ (process_conversation_flow s msg env).2.1.current_step = s.current_step
    ∧ (process_conversation_flow s msg env).2.2 = [] := by
  have hnc : s.current_step ≠ "completed" := by
    intro hh
    rw [hh] at hstep
    simp [flowSteps] at hstep
  refine ⟨?_, ?_, ?_, ?_, ?_⟩ <;>
    simp [process_conversation_flow, hfi, hnc, hstep, hv, hname]

/-- C5 amended witness: step one, answer `"x"`. -/
theorem C5_amended_witness :
    (process_conversation_flow step1Session "x" env0).2.1 = step1Session
    ∧ (process_conversation_flow step1Session "x" env0).1 = retryMessageD "step1_name" "" := by
  have h := C5_amended_invalid_keeps_state step1Session "x" env0
    ((flowSteps "step1_name").getD ⟨"", "", ""⟩) "" rfl rfl (by decide) rfl
  exact ⟨h.2.1, h.1⟩

theorem webCriteriaE_ok_true (s : Session) (h : webCriteriaE s = .ok true) :
    s.flow_completed = true
    ∧ fieldTruthy s.lead_data "identification" = true
    ∧ fieldTruthy s.lead_data "contact_info" = true
    ∧ fieldTruthy s.lead_data "area_qualification" = true
    ∧ fieldTruthy s.lead_data "case_details" = true := by
  unfold webCriteriaE at h
  split at h
  · next hcond =>
    simp only [webRequiredFields, List.all_cons, List.all_nil, Bool.and_eq_true,
      Bool.and_true] at hcond
    exact ⟨hcond.1, hcond.2.1, hcond.2.2.1, hcond.2.2.2.1, hcond.2.2.2.2⟩
  · simp at h

theorem whatsappEngagementE_ok_true (s : Session) (h : whatsappEngagementE s = .ok true) :
    4 ≤ s.message_count
    ∧ fieldTruthy s.lead_data "identification" = true
    ∧ fieldTruthy s.lead_data "contact_info" = true
    ∧ fieldTruthy s.lead_data "area_qualification" = true := by
  unfold whatsappEngagementE at h
  split at h
  · next hcond =>
    obtain ⟨h1, h2⟩ := hcond
    simp only [whatsappRequiredFields, List.all_cons, List.all_nil, Bool.and_eq_true,
      Bool.and_true] at h2
    exact ⟨h1, h2.1, h2.2.1, h2.2.2⟩
  · simp at h

/-- C4: the notification decision is positive only under the platform
criteria: for `web`, the flow is completed, all four lead fields are
present and the qualification score passes the `0.8` comparison (at least
eight tenths; the float comparison in fact requires nine); for `whatsapp`,
at least four messages were processed, the three lead fields are present,
the session has reached at least the case-details step, and the score
passes the `0.7` comparison (seven tenths). -/
theorem C4_notify_only_if_criteria (s : Session) (p : String)
    (h : (should_notify_lawyers s p).should_notify = true) :
    (p = "web" ∧ s.flow_completed = true
      ∧ fieldTruthy s.lead_data "identification" = true
      ∧ fieldTruthy s.lead_data "contact_info" = true
      ∧ fieldTruthy s.lead_data "area_qualification" = true
      ∧ fieldTruthy s.lead_data "case_details" = true
      ∧ 8 ≤ calculate_qualification_score s.lead_data p)
    ∨ (p = "whatsapp" ∧ 4 ≤ s.message_count
      ∧ fieldTruthy s.lead_data "identification" = true
      ∧ fieldTruthy s.lead_data "contact_info" = true
      ∧ fieldTruthy s.lead_data "area_qualification" = true
      ∧ (s.current_step = "step4_details" ∨ s.current_step = "step5_confirmation"
          ∨ s.current_step = "completed")
      ∧ 7 ≤ calculate_qualification_score s.lead_data p) := by
  unfold should_notify_lawyers at h
  cases he : shouldNotifyE s p with
  | error e => rw [he] at h; simp at h
  | ok d =>
    rw [he] at h
    simp only at h
    unfold shouldNotifyE at he
    split at he
    · cases he; simp at h
    · split at he
      · next hpweb =>
        have hp : p = "web" := eq_of_beq hpweb
        split at he
        · exact absurd he (by simp)
        · next cm hcm =>
          split at he
          · next hcond =>
            cases he
            simp only [Bool.and_eq_true] at hcond
            obtain ⟨hcmt, hs8⟩ := hcond
            subst hcmt
            obtain ⟨h1, h2, h3, h4, h5⟩ := webCriteriaE_ok_true s hcm
            have hscore : 9 ≤ calculate_qualification_score s.lead_data p := by
              have := of_decide_eq_true hs8
              omega
            exact Or.inl ⟨hp, h1, h2, h3, h4, h5, by omega⟩
          · cases he; simp [notQualifiedDecision] at h
      · split at he
        · next hpwa =>
          have hp : p = "whatsapp" := eq_of_beq hpwa
          split at he
          · exact absurd he (by simp)
          · next en hen =>
            split at he
            · next hcond =>
              cases he
              simp only [Bool.and_eq_true] at hcond
              obtain ⟨⟨hent, hadv⟩, hs7⟩ := hcond
              subst hent
              obtain ⟨h1, h2, h3, h4⟩ := whatsappEngagementE_ok_true s hen
              have hstep : s.current_step = "step4_details"
                  ∨ s.current_step = "step5_confirmation"
                  ∨ s.current_step = "completed" := by
                simpa [advancedSteps, List.contains, List.elem_cons, beq_iff_eq] using hadv
              have hscore : 7 ≤ calculate_qualification_score s.lead_data p :=
                of_decide_eq_true hs7
              exact Or.inr ⟨hp, h1, h2, h3, h4, hstep, hscore⟩
            · cases he; simp [notQualifiedDecision] at h
        · cases he; simp [notQualifiedDecision] at h

/-- C4 witness: the qualified web session is decided positive, and the
criteria indeed hold there. -/
theorem C4_witness :
    (should_notify_lawyers qualWebSession "web").should_notify = true
    ∧ 8 ≤ calculate_qualification_score qualWebSession.lead_data "web" := by
  refine ⟨by decide, ?_⟩
  rcases C4_notify_only_if_criteria qualWebSession "web" (by decide) with h | h
  · exact h.2.2.2.2.2.2
  · exact absurd h.1 (by decide)

@[simp] theorem notify_snd_lead_data (sid : String) (s : Session) (p : String) (o : NotifyOutcome) :
    (notify_lawyers_if_qualified sid s p o).2.1.lead_data = s.lead_data := by
  rcases notify_session_cases sid s p o with h | h <;> rw [h]

@[simp] theorem notify_snd_current_step (sid : String) (s : Session) (p : String) (o : NotifyOutcome) :
    (notify_lawyers_if_qualified sid s p o).2.1.current_step = s.current_step := by
  rcases notify_session_cases sid s p o with h | h <;> rw [h]

@[simp] theorem notify_snd_flow_completed (sid : String) (s : Session) (p : String) (o : NotifyOutcome) :
    (notify_lawyers_if_qualified sid s p o).2.1.flow_completed = s.flow_completed := by
  rcases notify_session_cases sid s p o with h | h <;> rw [h]

@[simp] theorem notify_snd_message_count (sid : String) (s : Session) (p : String) (o : NotifyOutcome) :
    (notify_lawyers_if_qualified sid s p o).2.1.message_count = s.message_count := by
  rcases notify_session_cases sid s p o with h | h <;> rw [h]

@[simp] theorem notify_snd_first_interaction (sid : String) (s : Session) (p : String) (o : NotifyOutcome) :
    (notify_lawyers_if_qualified sid s p o).2.1.first_interaction = s.first_interaction := by
  rcases notify_session_cases sid s p o with h | h <;> rw [h]

@[simp] theorem notify_snd_session_id (sid : String) (s : Session) (p : String) (o : NotifyOutcome) :
    (notify_lawyers_if_qualified sid s p o).2.1.session_id = s.session_id := by
  rcases notify_session_cases sid s p o with h | h <;> rw [h]

@[simp] theorem notify_snd_platform (sid : String) (s : Session) (p : String) (o : NotifyOutcome) :
    (notify_lawyers_if_qualified sid s p o).2.1.platform = s.platform := by
  rcases notify_session_cases sid s p o with h | h <;> rw [h]

@[simp] theorem notify_snd_phone_submitted (sid : String) (s : Session) (p : String) (o : NotifyOutcome) :
    (notify_lawyers_if_qualified sid s p o).2.1.phone_submitted = s.phone_submitted := by
  rcases notify_session_cases sid s p o with h | h <;> rw [h]

@[simp] theorem notify_snd_lead_qualified (sid : String) (s : Session) (p : String) (o : NotifyOutcome) :
    (notify_lawyers_if_qualified sid s p o).2.1.lead_qualified = s.lead_qualified := by
  rcases notify_session_cases sid s p o with h | h <;> rw [h]

@[simp] theorem notify_snd_last_updated (sid : String) (s : Session) (p : String) (o : NotifyOutcome) :
    (notify_lawyers_if_qualified sid s p o).2.1.last_updated = s.last_updated := by
  rcases notify_session_cases sid s p o with h | h <;> rw [h]

theorem leadFinalizationE_preserves (sid : String) (s : Session) (env : Env)
    (r : String × Session × List Event)
    (h : leadFinalizationE sid s env = .ok r) :
    r.2.1.lead_data = s.lead_data
    ∧ r.2.1.current_step = s.current_step
    ∧ r.2.1.flow_completed = s.flow_completed
    ∧ r.2.1.message_count = s.message_count
    ∧ r.2.1.first_interaction = s.first_interaction
    ∧ r.2.1.session_id = s.session_id
    ∧ r.2.1.platform = s.platform := by
  simp only [leadFinalizationE] at h
  cases hfw : firstWordOr (getFieldOr s.lead_data "identification" (.vstr "Cliente")) "Cliente" with
  | error e => simp only [hfw] at h; exact Except.noConfusion h
  | ok fn =>
    simp only [hfw] at h
    by_cases hp : (s.platform == "web") = true
    · rw [if_pos hp] at h
      cases hpc : phoneCleanE s.lead_data with
      | error e => simp only [hpc] at h; exact Except.noConfusion h
      | ok pv =>
        simp only [hpc] at h
        cases hpl : phoneLenAtLeastE pv 10 with
        | error e => simp only [hpl] at h; exact Except.noConfusion h
        | ok sendTest =>
          simp only [hpl] at h
          cases h
          refine ⟨?_, ?_, ?_, ?_, ?_, ?_, ?_⟩ <;> simp
    · rw [if_neg hp] at h
      cases hpc : phoneCleanE s.lead_data with
      | error e => simp only [hpc] at h; exact Except.noConfusion h
      | ok pv =>
        simp only [hpc] at h
        cases hpl : phoneLenAtLeastE pv 10 with
        | error e => simp only [hpl] at h; exact Except.noConfusion h
        | ok okPhone =>
          simp only [hpl] at h
          cases okPhone with
          | false =>
            rw [if_pos (by simp)] at h
            cases h
            exact ⟨rfl, rfl, rfl, rfl, rfl, rfl, rfl⟩
          | true =>
            rw [if_neg (by simp)] at h
            cases hsm : strategicWhatsappMessageE
                (getFieldOr s.lead_data "identification" (.vstr "Cliente"))
                (getFieldOr s.lead_data "area_qualification" (.vstr "direito")) with
            | error e => simp only [hsm] at h; exact Except.noConfusion h
            | ok wm =>
              simp only [hsm] at h
              cases h
              refine ⟨?_, ?_, ?_, ?_, ?_, ?_, ?_⟩ <;> simp

theorem finalization_preserves_core (sid : String) (s : Session) (env : Env)
    (r : String × Session × List Event)
    (h : handle_lead_finalization sid s env = .ok r) :
    r.2.1.lead_data = s.lead_data
    ∧ r.2.1.current_step = s.current_step
    ∧ r.2.1.flow_completed = s.flow_completed
    ∧ r.2.1.message_count = s.message_count
    ∧ r.2.1.first_interaction = s.first_interaction
    ∧ r.2.1.session_id = s.session_id
    ∧ r.2.1.platform = s.platform := by
  unfold handle_lead_finalization at h
  cases hlf : leadFinalizationE sid s env with
  | ok r2 =>
    simp only [hlf] at h
    cases h
    exact leadFinalizationE_preserves sid s env r hlf
  | error e =>
    simp only [hlf] at h
    cases hcf : condFirstWord s.lead_data with
    | error e2 => simp only [hcf] at h; exact Except.noConfusion h
    | ok fn =>
      simp only [hcf] at h
      cases h
      exact ⟨rfl, rfl, rfl, rfl, rfl, rfl, rfl⟩

/-- C6 counterexample: a valid contact-step answer containing a phone number
overwrites the pre-existing `phone` entry of `lead_data` — a key other than
the step's own field (`contact_info`) — so the merge does not overwrite
"only that step's field". -/
theorem C6_counterexample :
    getField step2PhoneSession.lead_data "phone" = some (.vstr "1111111111")
    ∧ validate_answer "11987654321" step2PhoneSession.current_step = true
    ∧ getField (process_conversation_flow step2PhoneSession "11987654321" env0).2.1.lead_data "phone"
        = some (.vstr "11987654321")
    ∧ "phone" ≠ ((flowSteps step2PhoneSession.current_step).getD ⟨"", "", ""⟩).field := by
  refine ⟨rfl, by decide, by decide, by decide⟩

/-- C6 amended: a valid answer merges the stripped message into the current
step's field and — on the contact step — additionally refreshes the derived
`phone`/`email` sub-fields; every other step field is unchanged;
`current_step` advances to the step's `next_step`; and when `next_step` is
the terminal `completed`, `flow_completed` is set and the closing message
produced by the finalization hand-off (or the greeting, if even its
exception handler raises) is returned. -/
theorem C6_amended_valid_advances (s : Session) (msg : String) (env : Env) (cfg : FlowStep)
    (hfi : s.first_interaction = false)
    (hstep : flowSteps s.current_step = some cfg)
    (hv : validate_answer msg s.current_step = true) :
    (process_conversation_flow s msg env).2.1.lead_data = mergedLead s msg
    ∧ getField (mergedLead s msg) cfg.field = some (.vstr (pyStrip msg))
    ∧ (∀ k, k ∈ stepFields → k ≠ cfg.field →
        getField (mergedLead s msg) k = getField s.lead_data k)
    ∧ (cfg.next_step ≠ "completed" →
        (process_conversation_flow s msg env).2.1.current_step = cfg.next_step)
    ∧ (cfg.next_step = "completed" →
        (process_conversation_flow s msg env).2.1.current_step = "completed"
        ∧ (process_conversation_flow s msg env).2.1.flow_completed = true
        ∧ (process_conversation_flow s msg env).1 =
            (match handle_lead_finalization s.session_id (completionState s msg env) env with
             | .ok r => r.1
             | .error _ => get_personalized_greeting env.hour)) := by
  have hnc : (s.current_step == "completed") = false := by
    rcases h2 : s.current_step == "completed" with _ | _
    · rfl
    · exfalso
      have h3 := eq_of_beq h2
      rw [h3] at hstep
      simp [flowSteps] at hstep
  refine ⟨?_, ?_, ?_, ?_, ?_⟩
  · simp only [process_conversation_flow, completionState, hfi, hnc, hstep, hv,
      Bool.false_eq_true, if_false, not_true, mergedLead, Option.getD_some,
      notify_snd_lead_data, notify_snd_current_step, notify_snd_flow_completed,
      notify_snd_message_count, notify_snd_first_interaction, notify_snd_session_id,
      notify_snd_platform, notify_snd_phone_submitted, notify_snd_lead_qualified,
      notify_snd_last_updated]
    by_cases hcn : (cfg.next_step == "completed") = true
    · rw [if_pos hcn]
      split
      · next r heq =>
        have hp := finalization_preserves_core _ _ _ _ heq
        rw [hp.1]
      · rfl
    · rw [if_neg hcn]
      split <;> rfl
  · unfold mergedLead
    rw [hstep]
    simp only [Option.getD_some]
    by_cases hc2 : (s.current_step == "step2_contact") = true
    · have hcs := eq_of_beq hc2
      rw [hcs] at hstep
      have h4 := hstep
      simp only [flowSteps, Option.some.injEq] at h4
      rw [if_pos hc2, ← h4]
      by_cases h1 : (extract_contact_info msg).1 ≠ "" <;>
        by_cases h2 : (extract_contact_info msg).2 ≠ "" <;>
          simp [h1, h2, getField_setField]
    · rw [if_neg hc2]
      simp [getField_setField]
  · intro k hk hkf
    have hkp : k ≠ "phone" ∧ k ≠ "email" := by
      simp only [stepFields, List.mem_cons, List.not_mem_nil, or_false] at hk
      rcases hk with rfl | rfl | rfl | rfl | rfl <;> exact ⟨by decide, by decide⟩
    simp only [mergedLead, hstep, Option.getD_some]
    split_ifs <;> simp [getField_setField, hkp.1, hkp.2, hkf]
  · intro hne
    have hcn : (cfg.next_step == "completed") = false := beq_eq_false_iff_ne.mpr hne
    simp only [process_conversation_flow, hfi, hnc, hstep, hv,
      Bool.false_eq_true, if_false, not_true, hcn,
      notify_snd_lead_data, notify_snd_current_step, notify_snd_flow_completed,
      notify_snd_message_count, notify_snd_first_interaction, notify_snd_session_id,
      notify_snd_platform, notify_snd_phone_submitted, notify_snd_lead_qualified,
      notify_snd_last_updated]
    split <;> rfl
  · intro heqc
    have hcn : (cfg.next_step == "completed") = true := by
      rw [heqc]
      exact beq_self_eq_true _
    simp only [process_conversation_flow, completionState, hfi, hnc, hstep, hv,
      Bool.false_eq_true, if_false, not_true, mergedLead, Option.getD_some,
      notify_snd_lead_data, notify_snd_current_step, notify_snd_flow_completed,
      notify_snd_message_count, notify_snd_first_interaction, notify_snd_session_id,
      notify_snd_platform, notify_snd_phone_submitted, notify_snd_lead_qualified,
      notify_snd_last_updated]
    rw [if_pos hcn]
    refine ⟨?_, ?_, ?_⟩
    · split
      · next r heq =>
        have hp := finalization_preserves_core _ _ _ _ heq
        rw [hp.2.1]
      · rfl
    · split
      · next r heq =>
        have hp := finalization_preserves_core _ _ _ _ heq
        rw [hp.2.2.1]
      · rfl
    · split <;> rfl

/-- C6 amended witness: a valid step-one answer is stored under
`identification` and the session advances to the contact step. -/
theorem C6_amended_witness :
    getField (mergedLead step1Session "Joao Silva")
        ((flowSteps "step1_name").getD ⟨"", "", ""⟩).field
      = some (.vstr (pyStrip "Joao Silva"))
    ∧ (process_conversation_flow step1Session "Joao Silva" env0).2.1.current_step
      = "step2_contact" := by
  have h := C6_amended_valid_advances step1Session "Joao Silva" env0
    ((flowSteps "step1_name").getD ⟨"", "", ""⟩) rfl rfl (by decide)
  exact ⟨h.2.1, h.2.2.2.1 (by decide)⟩

theorem flow_first_interaction (s : Session) (msg : String) (env : Env)
    (hfi : s.first_interaction = true) :
    (process_conversation_flow s msg env).2.1 = { s with first_interaction := false } := by
  simp [process_conversation_flow, hfi]

theorem flow_completed_keeps (s : Session) (msg : String) (env : Env)
    (hfi : s.first_interaction = false) (hc : s.current_step = "completed") :
    (process_conversation_flow s msg env).2.1 = s := by
  simp only [process_conversation_flow, hfi, Bool.false_eq_true, if_false, hc,
    beq_self_eq_true, if_true]
  cases hcf : condFirstWord s.lead_data <;> simp [hcf]

theorem flow_invalid_keeps (s : Session) (msg : String) (env : Env) (cfg : FlowStep)
    (hfi : s.first_interaction = false)
    (hstep : flowSteps s.current_step = some cfg)
    (hv : validate_answer msg s.current_step = false) :
    (process_conversation_flow s msg env).2.1 = s := by
  have hnc : (s.current_step == "completed") = false := by
    rcases h2 : s.current_step == "completed" with _ | _
    · rfl
    · exfalso
      have h3 := eq_of_beq h2
      rw [h3] at hstep
      simp [flowSteps] at hstep
  simp only [process_conversation_flow, hfi, Bool.false_eq_true, if_false, hnc, hstep, hv,
    not_false_iff, if_true]
  cases hcf : condFirstWord s.lead_data <;> simp [hcf]

theorem flow_result_step (s : Session) (msg : String) (env : Env) (cfg : FlowStep)
    (hfi : s.first_interaction = false)
    (hstep : flowSteps s.current_step = some cfg)
    (hv : validate_answer msg s.current_step = true) :
    (process_conversation_flow s msg env).2.1.current_step
      = (if (cfg.next_step == "completed") = true then "completed" else cfg.next_step) := by
  have hnc : (s.current_step == "completed") = false := by
    rcases h2 : s.current_step == "completed" with _ | _
    · rfl
    · exfalso
      have h3 := eq_of_beq h2
      rw [h3] at hstep
      simp [flowSteps] at hstep
  simp only [process_conversation_flow, hfi, hnc, hstep, hv, Bool.false_eq_true, if_false,
    not_true, notify_snd_lead_data, notify_snd_current_step, notify_snd_flow_completed,
    notify_snd_message_count, notify_snd_first_interaction, notify_snd_session_id,
    notify_snd_platform, notify_snd_phone_submitted, notify_snd_lead_qualified,
    notify_snd_last_updated]
  by_cases hcn : (cfg.next_step == "completed") = true
  · rw [if_pos hcn, if_pos hcn]
    split
    · next r heq =>
      have hp := finalization_preserves_core _ _ _ _ heq
      rw [hp.2.1]
    · rfl
  · rw [if_neg hcn, if_neg hcn]
    split <;> rfl

theorem stepIndex_cases (c : String) (i : Nat) (h : stepIndex c = some i) :
    (c = "step1_name" ∧ i = 1) ∨ (c = "step2_contact" ∧ i = 2) ∨ (c = "step3_area" ∧ i = 3)
    ∨ (c = "step4_details" ∧ i = 4) ∨ (c = "step5_confirmation" ∧ i = 5)
    ∨ (c = "completed" ∧ i = 6) := by
  unfold stepIndex at h
  split at h <;> simp_all

theorem flow_step_monotone (s : Session) (msg : String) (env : Env) (i : Nat)
    (hi : stepIndex s.current_step = some i) :
    ∃ j, stepIndex (process_conversation_flow s msg env).2.1.current_step = some j
      ∧ i ≤ j ∧ j ≤ i + 1
      ∧ (i < j → validate_answer msg s.current_step = true) := by
  by_cases hfi : s.first_interaction = true
  · rw [flow_first_interaction s msg env hfi]
    exact ⟨i, hi, le_refl i, by omega, fun h => absurd h (by omega)⟩
  · have hfi2 : s.first_interaction = false := by
      revert hfi
      cases s.first_interaction <;> simp
    rcases stepIndex_cases _ _ hi with ⟨heq, rfl⟩ | ⟨heq, rfl⟩ | ⟨heq, rfl⟩ | ⟨heq, rfl⟩
      | ⟨heq, rfl⟩ | ⟨heq, rfl⟩
    · by_cases hv : validate_answer msg s.current_step = true
      · have hstep : flowSteps s.current_step
            = some ((flowSteps "step1_name").getD ⟨"", "", ""⟩) := by rw [heq]; rfl
        rw [flow_result_step s msg env _ hfi2 hstep hv]
        exact ⟨2, by decide, by omega, by omega, fun _ => hv⟩
      · have hv2 : validate_answer msg s.current_step = false := by
          revert hv
          cases validate_answer msg s.current_step <;> simp
        have hstep : flowSteps s.current_step
            = some ((flowSteps "step1_name").getD ⟨"", "", ""⟩) := by rw [heq]; rfl
        rw [flow_invalid_keeps s msg env _ hfi2 hstep hv2]
        exact ⟨1, hi, le_refl _, by omega, fun h => absurd h (by omega)⟩
    · by_cases hv : validate_answer msg s.current_step = true
      · have hstep : flowSteps s.current_step
            = some ((flowSteps "step2_contact").getD ⟨"", "", ""⟩) := by rw [heq]; rfl
        rw [flow_result_step s msg env _ hfi2 hstep hv]
        exact ⟨3, by decide, by omega, by omega, fun _ => hv⟩
      · have hv2 : validate_answer msg s.current_step = false := by
          revert hv
          cases validate_answer msg s.current_step <;> simp
        have hstep : flowSteps s.current_step
            = some ((flowSteps "step2_contact").getD ⟨"", "", ""⟩) := by rw [heq]; rfl
        rw [flow_invalid_keeps s msg env _ hfi2 hstep hv2]
        exact ⟨2, hi, le_refl _, by omega, fun h => absurd h (by omega)⟩
    · by_cases hv : validate_answer msg s.current_step = true
      · have hstep : flowSteps s.current_step
            = some ((flowSteps "step3_area").getD ⟨"", "", ""⟩) := by rw [heq]; rfl
        rw [flow_result_step s msg env _ hfi2 hstep hv]
        exact ⟨4, by decide, by omega, by omega, fun _ => hv⟩
      · have hv2 : validate_answer msg s.current_step = false := by
          revert hv
          cases validate_answer msg s.current_step <;> simp
        have hstep : flowSteps s.current_step
            = some ((flowSteps "step3_area").getD ⟨"", "", ""⟩) := by rw [heq]; rfl
        rw [flow_invalid_keeps s msg env _ hfi2 hstep hv2]
        exact ⟨3, hi, le_refl _, by omega, fun h => absurd h (by omega)⟩
    · by_cases hv : validate_answer msg s.current_step = true
      · have hstep : flowSteps s.current_step
            = some ((flowSteps "step4_details").getD ⟨"", "", ""⟩) := by rw [heq]; rfl
        rw [flow_result_step s msg env _ hfi2 hstep hv]
        exact ⟨5, by decide, by omega, by omega, fun _ => hv⟩
      · have hv2 : validate_answer msg s.current_step = false := by
          revert hv
          cases validate_answer msg s.current_step <;> simp
        have hstep : flowSteps s.current_step
            = some ((flowSteps "step4_details").getD ⟨"", "", ""⟩) := by rw [heq]; rfl
        rw [flow_invalid_keeps s msg env _ hfi2 hstep hv2]
        exact ⟨4, hi, le_refl _, by omega, fun h => absurd h (by omega)⟩
    · by_cases hv : validate_answer msg s.current_step = true
      · have hstep : flowSteps s.current_step
            = some ((flowSteps "step5_confirmation").getD ⟨"", "", ""⟩) := by rw [heq]; rfl
        rw [flow_result_step s msg env _ hfi2 hstep hv]
        exact ⟨6, by decide, by omega, by omega, fun _ => hv⟩
      · have hv2 : validate_answer msg s.current_step = false := by
          revert hv
          cases validate_answer msg s.current_step <;> simp
        have hstep : flowSteps s.current_step
            = some ((flowSteps "step5_confirmation").getD ⟨"", "", ""⟩) := by rw [heq]; rfl
        rw [flow_invalid_keeps s msg env _ hfi2 hstep hv2]
        exact ⟨5, hi, le_refl _, by omega, fun h => absurd h (by omega)⟩
    · rw [flow_completed_keeps s msg env hfi2 heq]
      exact ⟨6, hi, le_refl _, by omega, fun h => absurd h (by omega)⟩

theorem notify_saves_step (sid : String) (s : Session) (p : String) (o : NotifyOutcome) :
    ∀ e ∈ (notify_lawyers_if_qualified sid s p o).2.2, ∀ sid2 sx,
      e = .sessionSaved sid2 sx → sx.current_step = s.current_step := by
  intro e he sid2 sx hee
  rcases notify_trace_shape sid s p o with h | h | h <;> rw [h] at he
  · simp at he
  · simp at he
    subst he
    exact absurd hee (by simp)
  · simp at he
    rcases he with he | he <;> subst he
    · exact absurd hee (by simp)
    · injection hee with h1 h2
      subst h2
      rfl

theorem leadFinalizationE_saves_step (sid : String) (s : Session) (env : Env)
    (r : String × Session × List Event)
    (h : leadFinalizationE sid s env = .ok r) :
    ∀ e ∈ r.2.2, ∀ sid2 sx, e = .sessionSaved sid2 sx → sx.current_step = s.current_step := by
  simp only [leadFinalizationE] at h
  cases hfw : firstWordOr (getFieldOr s.lead_data "identification" (.vstr "Cliente")) "Cliente" with
  | error e => simp only [hfw] at h; exact Except.noConfusion h
  | ok fn =>
    simp only [hfw] at h
    by_cases hp : (s.platform == "web") = true
    · rw [if_pos hp] at h
      cases hpc : phoneCleanE s.lead_data with
      | error e => simp only [hpc] at h; exact Except.noConfusion h
      | ok pv =>
        simp only [hpc] at h
        cases hpl : phoneLenAtLeastE pv 10 with
        | error e => simp only [hpl] at h; exact Except.noConfusion h
        | ok sendTest =>
          simp only [hpl] at h
          cases h
          intro e he sid2 sx hee
          subst hee
          cases sendTest <;> simp at he
          · exact notify_saves_step sid s s.platform env.notifyOutcome2 _ he sid2 sx rfl
          · exact notify_saves_step sid s s.platform env.notifyOutcome2 _ he sid2 sx rfl
    · rw [if_neg hp] at h
      cases hpc : phoneCleanE s.lead_data with
      | error e => simp only [hpc] at h; exact Except.noConfusion h
      | ok pv =>
        simp only [hpc] at h
        cases hpl : phoneLenAtLeastE pv 10 with
        | error e => simp only [hpl] at h; exact Except.noConfusion h
        | ok okPhone =>
          simp only [hpl] at h
          cases okPhone with
          | false =>
            rw [if_pos (by simp)] at h
            cases h
            intro e he
            simp at he
          | true =>
            rw [if_neg (by simp)] at h
            cases hsm : strategicWhatsappMessageE
                (getFieldOr s.lead_data "identification" (.vstr "Cliente"))
                (getFieldOr s.lead_data "area_qualification" (.vstr "direito")) with
            | error e => simp only [hsm] at h; exact Except.noConfusion h
            | ok wm =>
              simp only [hsm] at h
              cases h
              intro e he sid2 sx hee
              subst hee
              simp at he
              rcases he with he | he
              · obtain ⟨h1, h2⟩ := he
                subst h2
                rfl
              · have h3 := notify_saves_step sid _ s.platform env.notifyOutcome2 _ he sid2 sx rfl
                exact h3

theorem finalization_saves_step (sid : String) (s : Session) (env : Env)
    (r : String × Session × List Event)
    (h : handle_lead_finalization sid s env = .ok r) :
    ∀ e ∈ r.2.2, ∀ sid2 sx, e = .sessionSaved sid2 sx → sx.current_step = s.current_step := by
  unfold handle_lead_finalization at h
  cases hlf : leadFinalizationE sid s env with
  | ok r2 =>
    simp only [hlf] at h
    cases h
    exact leadFinalizationE_saves_step sid s env r hlf
  | error e =>
    simp only [hlf] at h
    cases hcf : condFirstWord s.lead_data with
    | error e2 => simp only [hcf] at h; exact Except.noConfusion h
    | ok fn =>
      simp only [hcf] at h
      cases h
      intro e he
      simp at he

theorem phone_collection_saves_step (pm sid : String) (s : Session) (env : Env)
    (r : String × Session × List Event)
    (h : handle_phone_collection pm sid s env = .ok r) :
    ∀ e ∈ r.2.2, ∀ sid2 sx, e = .sessionSaved sid2 sx → sx.current_step = s.current_step := by
  unfold handle_phone_collection at h
  cases hb : phoneCollectionBodyE pm sid s env with
  | ok rb =>
    simp only [hb] at h
    cases h
    -- the body: trim, the length guard, then the finalization hand-off
    simp only [phoneCollectionBodyE] at hb
    cases hcf : condFirstWord s.lead_data with
    | error e2 => simp only [hcf] at hb; exact Except.noConfusion hb
    | ok fn =>
      simp only [hcf] at hb
      split at hb
      · cases hb
        intro e he
        simp at he
      · intro e he sid2 sx hee
        exact finalization_saves_step sid _ env r hb e he sid2 sx hee
  | error e =>
    simp only [hb] at h
    cases hcf : condFirstWord s.lead_data with
    | error e2 => simp only [hcf] at h; exact Except.noConfusion h
    | ok fn =>
      simp only [hcf] at h
      cases h
      intro e he
      simp at he

theorem finalStored_append_save (stored : Option Session) (ev : List Event)
    (sid : String) (x : Session) :
    finalStored stored (ev ++ [Event.sessionSaved sid x]) = some x := by
  unfold finalStored
  rw [List.foldl_append]
  rfl

theorem finalStored_preserved (ev : List Event) (stored : Option Session) (c : String)
    (h0 : ∀ s0, stored = some s0 → s0.current_step = c)
    (hsome : stored.isSome = true)
    (hev : ∀ e ∈ ev, ∀ sid sx, e = .sessionSaved sid sx → sx.current_step = c) :
    ∃ s2, finalStored stored ev = some s2 ∧ s2.current_step = c := by
  induction ev generalizing stored with
  | nil =>
    cases stored with
    | none => simp at hsome
    | some s0 => exact ⟨s0, rfl, h0 s0 rfl⟩
  | cons e t ih =>
    cases e with
    | sessionSaved sid x =>
      have hx : x.current_step = c := hev _ (List.mem_cons_self _ _) sid x rfl
      have ht := ih (some x) (fun s0 hs0 => by cases hs0; exact hx) rfl
        (fun e2 he2 => hev e2 (List.mem_cons_of_mem _ he2))
      simpa [finalStored] using ht
    | notifySend sid =>
      have ht := ih stored h0 hsome (fun e2 he2 => hev e2 (List.mem_cons_of_mem _ he2))
      simpa [finalStored] using ht
    | leadSaved =>
      have ht := ih stored h0 hsome (fun e2 he2 => hev e2 (List.mem_cons_of_mem _ he2))
      simpa [finalStored] using ht
    | whatsappSend ph =>
      have ht := ih stored h0 hsome (fun e2 he2 => hev e2 (List.mem_cons_of_mem _ he2))
      simpa [finalStored] using ht

/-- C7: across consecutive processed messages for the same session,
`current_step` never decreases.  One `process_message` call on a stored
session at step index `i` leaves the store holding a session at index `j`
with `i ≤ j ≤ i + 1` (forward only, no skipping, no going backward), and
`j > i` only when the inbound answer validates against the stored session's
current step.  Iterating this over a message sequence gives the monotone
invariant. -/
theorem C7_step_monotone (stored : Option Session) (msg sid p : String)
    (pn : Option String) (env : Env) (s : Session) (i : Nat)
    (hres : get_user_session stored env.now = some s)
    (hi : stepIndex s.current_step = some i) :
    ∃ s2 j, finalStored stored (process_message stored msg sid pn p env).2 = some s2
      ∧ stepIndex s2.current_step = some j
      ∧ i ≤ j ∧ j ≤ i + 1
      ∧ (i < j → validate_answer msg s.current_step = true) := by
  have hstored : stored = some s := by
    cases stored with
    | none => simp [get_user_session] at hres
    | some s0 =>
      simp only [get_user_session] at hres
      by_cases hT : sessionTTL < env.now - s0.last_updated
      · rw [if_pos hT] at hres; exact absurd hres (by simp)
      · rw [if_neg hT] at hres; exact hres
  subst hstored
  have hL : ∃ sL, get_or_create_session (some s) sid p pn env = (sL, [])
      ∧ sL.current_step = s.current_step := by
    cases pn with
    | none => exact ⟨s, by simp [get_or_create_session, hres], rfl⟩
    | some ph => exact ⟨{ s with phone_number := some ph }, by simp [get_or_create_session, hres], rfl⟩
  obtain ⟨sL, hgc, hcs⟩ := hL
  by_cases hq : (sL.lead_qualified && !sL.phone_submitted && is_phone_number msg) = true
  · cases hpc : handle_phone_collection msg sid sL env with
    | ok r =>
      have hev : (process_message (some s) msg sid pn p env).2 = r.2.2 := by
        simp [process_message, hgc, hq, hpc]
      rw [hev]
      obtain ⟨s2, hs2, hc2⟩ := finalStored_preserved r.2.2 (some s) s.current_step
        (fun s0 hs0 => by cases hs0; rfl) rfl
        (fun e he sid2 sx hee =>
          (phone_collection_saves_step msg sid sL env r hpc e he sid2 sx hee).trans hcs)
      exact ⟨s2, i, hs2, by rw [hc2]; exact hi, le_refl i, by omega, fun h => absurd h (by omega)⟩
    | error e =>
      have hev : (process_message (some s) msg sid pn p env).2 = [] := by
        simp [process_message, hgc, hq, hpc]
      rw [hev]
      exact ⟨s, i, rfl, hi, le_refl i, by omega, fun h => absurd h (by omega)⟩
  · have hiL : stepIndex sL.current_step = some i := by rw [hcs]; exact hi
    obtain ⟨j, hj, hij, hji, hval⟩ := flow_step_monotone sL msg env i hiL
    have hev : (process_message (some s) msg sid pn p env).2
        = (process_conversation_flow sL msg env).2.2
          ++ [Event.sessionSaved sid
              { (process_conversation_flow sL msg env).2.1 with
                message_count := (process_conversation_flow sL msg env).2.1.message_count + 1,
                last_updated := env.now }] := by
      simp [process_message, hgc, hq]
    refine ⟨{ (process_conversation_flow sL msg env).2.1 with
              message_count := (process_conversation_flow sL msg env).2.1.message_count + 1,
              last_updated := env.now }, j, ?_, ?_, hij, hji, ?_⟩
    · rw [hev]
      exact finalStored_append_save (some s) _ sid _
    · exact hj
    · intro h
      have hv := hval h
      rwa [hcs] at hv

/-- Witness for C7 at a concrete input: a stored step-1 session receiving
the valid answer "Joao Silva". -/
theorem C7_witness :
    get_user_session (some step1Session) env0.now = some step1Session
    ∧ ∃ s2 j, finalStored (some step1Session)
        (process_message (some step1Session) "Joao Silva" "sid-s1" none "web" env0).2 = some s2
      ∧ stepIndex s2.current_step = some j
      ∧ 1 ≤ j ∧ j ≤ 1 + 1
      ∧ (1 < j → validate_answer "Joao Silva" step1Session.current_step = true) :=
  ⟨rfl, C7_step_monotone (some step1Session) "Joao Silva" "sid-s1" "web" none env0
    step1Session 1 rfl rfl⟩
